/-
Verification of the exercise-validation engine of the posture-perfect
repository (real-time posture coaching).

This file gives a shallow embedding, in Lean 4, of the four exercise
validators under src/exercises/scoliosis/ (Cat-Cow, Wall Angels, Chest
Opener, Neck Side-to-Side), of their shared ValidationResult contract
(src/exercises/base_exercise.py), and of the two three-point angle helpers
(CatCowPose._calculate_angle and AngleCalculator.calculate_angle), and
proves properties of the embedded code.

Modelling conventions:
- Python floats are modelled as rationals (ℚ); the geometry helpers, whose
  substance is square roots and inverse cosines, are modelled over ℝ.
- A metrics dict is modelled as a structure whose fields are the keys the
  validator reads; `metrics.get(key, default)` becomes a field whose
  declared default is the `.get` default.
- A validator instance's mutable attributes become a state structure; the
  method `validate_form(self, metrics, frame_count)` becomes a pure
  function `State → Metrics → ℕ → ValidationResult × State`.
- Sequential attribute mutation inside one call is decomposed per field:
  each field of the post-state is one `if`-expression whose condition is
  the source branch that assigns it.
- Python f-string number formatting (":.1f", ":.0f") is modelled by
  `fmt1` / `fmt0` below; no theorem depends on the digits they produce.
-/

import Mathlib

set_option maxHeartbeats 1000000

/-! ## Shared output contract and small helpers -/

/-- The `ValidationResult` dataclass of src/exercises/base_exercise.py,
parametrised by the exercise-specific `details` payload (in the source the
payload is an untyped dict). `angles` is the name → float snapshot mapping. -/
structure ValidationResult (δ : Type) where
  is_correct : Bool
  feedback_messages : List String
  angles : List (String × ℚ)
  score : ℚ
  details : δ
  deriving DecidableEq

/-- Appending to a `collections.deque(maxlen := n)`: the oldest entries are
evicted once the buffer is full. -/
def dequeAppend (maxlen : ℕ) (xs : List ℚ) (x : ℚ) : List ℚ :=
  let ys := xs ++ [x]
  if maxlen < ys.length then ys.drop (ys.length - maxlen) else ys

/-- Python `int(q)` for the nonnegative-or-negative rational `q`:
truncation toward zero. -/
def pyInt (q : ℚ) : ℤ :=
  if q < 0 then ⌈q⌉ else ⌊q⌋

/-- Rendering of a rational with one decimal digit, modelling the Python
format specifier ":.1f" (rounding mode differences with IEEE formatting are
irrelevant: no theorem inspects these digits). -/
def fmt1 (q : ℚ) : String :=
  let n : ℤ := ⌊q * 10 + 1/2⌋
  toString (n / 10) ++ "." ++ toString ((n % 10).natAbs)

/-- Rendering of a rational with no decimal digit, modelling ":.0f". -/
def fmt0 (q : ℚ) : String :=
  toString (⌊q + 1/2⌋ : ℤ)

/-! ## Cat-Cow pose (src/exercises/scoliosis/cat_cow.py)

`CatCowPose`: thresholds (lines 30-45), mutable state (lines 47-61),
`validate_form` (lines 185-320), `reset` (lines 346-354). -/

/-- Threshold `CatCowPose.MIN_SPINE_FLEX` (minimum flexion angle, Cat pose). -/
def MIN_SPINE_FLEX : ℚ := 10

/-- Threshold `CatCowPose.MAX_SPINE_FLEX` (maximum safe flexion). -/
def MAX_SPINE_FLEX : ℚ := 35

/-- Threshold `CatCowPose.MIN_SPINE_EXT` (minimum extension angle, Cow pose). -/
def MIN_SPINE_EXT : ℚ := 10

/-- Threshold `CatCowPose.MAX_SPINE_EXT` (maximum safe extension). -/
def MAX_SPINE_EXT : ℚ := 30

/-- Threshold `CatCowPose.TEMPO_MIN` (minimum seconds per transition). -/
def TEMPO_MIN : ℚ := 2

/-- Threshold `CatCowPose.TEMPO_MAX` (maximum seconds per transition). -/
def TEMPO_MAX : ℚ := 5

/-- Threshold `CatCowPose.SHOULDER_WRIST_TOLERANCE` (degrees from vertical). -/
def SHOULDER_WRIST_TOLERANCE : ℚ := 15

/-- Threshold `CatCowPose.HIP_KNEE_TOLERANCE` (degrees from vertical). -/
def HIP_KNEE_TOLERANCE : ℚ := 15

/-- The position states `STATE_NEUTRAL` / `STATE_CAT` / `STATE_COW`
(strings in the source, lines 43-45). -/
inductive CCState where
  | neutral
  | cat
  | cow
  deriving DecidableEq

/-- The metrics dict consumed by `CatCowPose.validate_form`, produced by
`CatCowPose.calculate_metrics` (lines 177-183).  The extra `all_visible`
field models the `'all_visible'` key that a metrics dict may carry in this
code base (the Neck Side-to-Side extractor sets it from the `'_all_visible'`
sentinel that src/main.py, lines 220-225, adds to every landmark dict);
`CatCowPose.validate_form` never reads any visibility key. -/
structure CatCowMetrics where
  spine_curvature : ℚ
  shoulder_alignment : ℚ
  hip_alignment : ℚ
  symmetry_diff : ℚ
  head_alignment : ℚ
  all_visible : Bool := true
  deriving DecidableEq

/-- Mutable attributes of a `CatCowPose` instance (set in `__init__`,
lines 47-61). -/
structure CatCowState where
  current_state : CCState
  last_state_change : ℕ
  rep_count : ℚ
  spine_angle_history : List ℚ
  transition_times : List ℚ
  symmetry_violations : ℕ
  tempo_violations : ℕ
  deriving DecidableEq

/-- The attribute values set by `CatCowPose.__init__` (lines 47-61). -/
def catCowInit : CatCowState where
  current_state := CCState.neutral
  last_state_change := 0
  rep_count := 0
  spine_angle_history := []
  transition_times := []
  symmetry_violations := 0
  tempo_violations := 0

/-- Method `CatCowPose.reset` (lines 346-354): every mutable attribute back to its
initial value. -/
def catCowReset (_s : CatCowState) : CatCowState where
  current_state := CCState.neutral
  last_state_change := 0
  rep_count := 0
  spine_angle_history := []
  transition_times := []
  symmetry_violations := 0
  tempo_violations := 0

/-- The `details` dict built at lines 312-319 of cat_cow.py. -/
structure CatCowDetails where
  state : CCState
  reps : ℤ
  symmetry_violations : ℕ
  tempo_violations : ℕ
  avg_tempo : ℚ
  deriving DecidableEq

/-- State detection, cat_cow.py lines 202-207: flexion below
`-MIN_SPINE_FLEX` is Cat, extension above `MIN_SPINE_EXT` is Cow,
otherwise neutral. -/
def catCowClassify (spine_curve : ℚ) : CCState :=
  if spine_curve < -MIN_SPINE_FLEX then CCState.cat
  else if spine_curve > MIN_SPINE_EXT then CCState.cow
  else CCState.neutral

/-- Lines 214-215: only Cat↔Cow transitions count as (half-)reps. -/
def catCowRepTransition (previous_state current_state : CCState) : Prop :=
  (previous_state = CCState.cat ∧ current_state = CCState.cow) ∨
  (previous_state = CCState.cow ∧ current_state = CCState.cat)

instance (p c : CCState) : Decidable (catCowRepTransition p c) := by
  unfold catCowRepTransition; infer_instance

/-- Score deduction of the tempo check, lines 220-227 (5 when faster than
`TEMPO_MIN`, 3 when slower than `TEMPO_MAX`). -/
def catCowTempoPenalty (transition_time : ℚ) : ℚ :=
  if transition_time < TEMPO_MIN then 5
  else if transition_time > TEMPO_MAX then 3
  else 0

/-- Score deduction of the spine-curvature range check, lines 238-263. -/
def catCowSpinePenalty (current_state : CCState) (spine_curve : ℚ) : ℚ :=
  if current_state = CCState.cat then
    if spine_curve > -MIN_SPINE_FLEX then 15
    else if spine_curve < -MAX_SPINE_FLEX then 20
    else 0
  else if current_state = CCState.cow then
    if spine_curve < MIN_SPINE_EXT then 15
    else if spine_curve > MAX_SPINE_EXT then 20
    else 0
  else 0

/-- The spine-curvature range check marks the frame incorrect
(lines 238-260, the branches that set `is_correct = False`). -/
def catCowSpineViolation (current_state : CCState) (spine_curve : ℚ) : Prop :=
  (current_state = CCState.cat ∧
    (spine_curve > -MIN_SPINE_FLEX ∨ spine_curve < -MAX_SPINE_FLEX)) ∨
  (current_state = CCState.cow ∧
    (spine_curve < MIN_SPINE_EXT ∨ spine_curve > MAX_SPINE_EXT))

instance (c : CCState) (q : ℚ) : Decidable (catCowSpineViolation c q) := by
  unfold catCowSpineViolation; infer_instance

/-- The transition time computed at line 211 of cat_cow.py:
`(frame_count - self.last_state_change) / 30.0`. -/
def catCowTransitionTime (s : CatCowState) (frame_count : ℕ) : ℚ :=
  ((frame_count : ℚ) - (s.last_state_change : ℚ)) / 30

/-- A state transition that counts a half-rep (lines 210-215): the stored
state changed and the change is Cat↔Cow. -/
def catCowCountedTransition (s : CatCowState) (spine_curve : ℚ) : Prop :=
  s.current_state ≠ catCowClassify spine_curve ∧
    catCowRepTransition s.current_state (catCowClassify spine_curve)

instance (s : CatCowState) (q : ℚ) :
    Decidable (catCowCountedTransition s q) := by
  unfold catCowCountedTransition; infer_instance

/-- The mutation of the `CatCowPose` attributes performed by one
`validate_form` call (cat_cow.py lines 197-298), field by field. -/
def catCowPostState (s : CatCowState) (metrics : CatCowMetrics)
    (frame_count : ℕ) : CatCowState where
  -- lines 202-207
  current_state := catCowClassify metrics.spine_curvature
  -- line 233 (inside the `previous_state != current_state` branch)
  last_state_change :=
    if s.current_state ≠ catCowClassify metrics.spine_curvature then frame_count
    else s.last_state_change
  -- line 217: self.rep_count += 0.5
  rep_count :=
    if catCowCountedTransition s metrics.spine_curvature then s.rep_count + 1/2
    else s.rep_count
  -- line 197: append to the maxlen-150 deque
  spine_angle_history := dequeAppend 150 s.spine_angle_history metrics.spine_curvature
  -- line 231
  transition_times :=
    if catCowCountedTransition s metrics.spine_curvature then
      s.transition_times ++ [catCowTransitionTime s frame_count]
    else s.transition_times
  -- lines 278-281
  symmetry_violations :=
    if metrics.symmetry_diff > 15 then s.symmetry_violations + 1
    else s.symmetry_violations
  -- lines 220-227
  tempo_violations :=
    if catCowCountedTransition s metrics.spine_curvature ∧
        (catCowTransitionTime s frame_count < TEMPO_MIN ∨
          catCowTransitionTime s frame_count > TEMPO_MAX) then
      s.tempo_violations + 1
    else s.tempo_violations

/-- Method `CatCowPose.validate_form` (cat_cow.py lines 185-320), returning the
`ValidationResult` and the post-call instance state.  The `details` dict
(lines 312-319) reads the already-mutated attributes, hence the
`catCowPostState` projections. -/
def catCowValidate (s : CatCowState) (metrics : CatCowMetrics)
    (frame_count : ℕ) : ValidationResult CatCowDetails × CatCowState :=
  let spine_curve := metrics.spine_curvature
  let post := catCowPostState s metrics frame_count
  let current_state := catCowClassify spine_curve
  let transition_time := catCowTransitionTime s frame_count
  let rep_transition := catCowCountedTransition s spine_curve
  -- lines 220-229: tempo feedback on counted transitions
  let tempoFeedback : List String :=
    if rep_transition then
      if transition_time < TEMPO_MIN then ["⚠️ Slow down - move with control"]
      else if transition_time > TEMPO_MAX then ["⚠️ Speed up slightly - maintain flow"]
      else ["✓ Good tempo (" ++ fmt1 transition_time ++ "s)"]
    else []
  -- ========== POSITION VALIDATION ==========
  -- 1. spine curvature range (lines 238-263)
  let spineFeedback : List String :=
    if current_state = CCState.cat then
      if spine_curve > -MIN_SPINE_FLEX then ["⚠️ CAT: Round spine more (arch upward)"]
      else if spine_curve < -MAX_SPINE_FLEX then ["⚠️ CAT: Don\x27t over-flex spine"]
      else ["✓ CAT: Good spinal flexion"]
    else if current_state = CCState.cow then
      if spine_curve < MIN_SPINE_EXT then ["⚠️ COW: Extend spine more (drop belly)"]
      else if spine_curve > MAX_SPINE_EXT then ["⚠️ COW: Don\x27t over-extend spine"]
      else ["✓ COW: Good spinal extension"]
    else ["ℹ️ Return to starting position"]
  -- 2. shoulder-wrist alignment (lines 266-269)
  let shoulderViolation := metrics.shoulder_alignment > SHOULDER_WRIST_TOLERANCE
  let shoulderFeedback : List String :=
    if shoulderViolation then ["⚠️ Hands should be directly under shoulders"] else []
  -- 3. hip-knee alignment (lines 272-275)
  let hipViolation := metrics.hip_alignment > HIP_KNEE_TOLERANCE
  let hipFeedback : List String :=
    if hipViolation then ["⚠️ Knees should be directly under hips"] else []
  -- 4. symmetry (lines 278-284)
  let symmetryViolation := metrics.symmetry_diff > 15
  let symmetryFeedback : List String :=
    if symmetryViolation then ["⚠️ IMPORTANT: Keep movement symmetrical on both sides"]
    else ["✓ Good left-right symmetry"]
  -- 5. head alignment (lines 287-289); deducts score but keeps is_correct
  let headViolation := metrics.head_alignment > 20
  let headFeedback : List String :=
    if headViolation then ["⚠️ Keep head aligned with spine"] else []
  -- ========== PROGRESS TRACKING (lines 292-298), on the mutated attributes ==========
  let progressFeedback : List String :=
    if post.rep_count > 0 then
      ["📊 Reps completed: " ++ toString (pyInt post.rep_count)] else []
  let avg_tempo : ℚ :=
    if post.transition_times ≠ [] then
      post.transition_times.sum / (post.transition_times.length : ℚ)
    else 0
  let avgTempoFeedback : List String :=
    if post.transition_times ≠ [] then ["⏱️ Average tempo: " ++ fmt1 avg_tempo ++ "s"]
    else []
  -- accumulated score deductions and is_correct flags of the checks above
  let tempoPenalty := if rep_transition then catCowTempoPenalty transition_time else 0
  let score : ℚ :=
    100 - tempoPenalty - catCowSpinePenalty current_state spine_curve
      - (if shoulderViolation then 10 else 0)
      - (if hipViolation then 10 else 0)
      - (if symmetryViolation then 15 else 0)
      - (if headViolation then 5 else 0)
  let is_correct : Bool :=
    if catCowSpineViolation current_state spine_curve ∨ shoulderViolation ∨
        hipViolation ∨ symmetryViolation
    then false else true
  -- line 300: score = max(0, score); lines 302-320: result
  (⟨is_correct,
    tempoFeedback ++ spineFeedback ++ shoulderFeedback ++ hipFeedback ++
      symmetryFeedback ++ headFeedback ++ progressFeedback ++ avgTempoFeedback,
    [("spine_curvature", spine_curve),
     ("shoulder_alignment", metrics.shoulder_alignment),
     ("hip_alignment", metrics.hip_alignment),
     ("symmetry", metrics.symmetry_diff)],
    max 0 score,
    ⟨post.current_state, pyInt post.rep_count, post.symmetry_violations,
      post.tempo_violations, avg_tempo⟩⟩,
   post)

/-- Folding `validate_form` over a sequence of (metrics, frame_count)
calls: the final instance state. -/
def catCowRun (s : CatCowState) : List (CatCowMetrics × ℕ) → CatCowState
  | [] => s
  | (m, f) :: rest => catCowRun (catCowValidate s m f).2 rest

/-- The sequence of `ValidationResult`s of a sequence of calls. -/
def catCowOutputs (s : CatCowState) :
    List (CatCowMetrics × ℕ) → List (ValidationResult CatCowDetails)
  | [] => []
  | (m, f) :: rest =>
      (catCowValidate s m f).1 :: catCowOutputs (catCowValidate s m f).2 rest

/-! ## Wall Angels (src/exercises/scoliosis/wall_angels.py)

`WallAngels`: thresholds (lines 33-49), mutable state (lines 51-68),
`validate_form` (lines 165-302), `reset` (lines 324-333). -/

/-- Threshold `WallAngels.MIN_ARM_ANGLE_DOWN`. -/
def MIN_ARM_ANGLE_DOWN : ℚ := 70

/-- Threshold `WallAngels.MAX_ARM_ANGLE_DOWN`. -/
def MAX_ARM_ANGLE_DOWN : ℚ := 110

/-- Threshold `WallAngels.MIN_ARM_ANGLE_UP`. -/
def MIN_ARM_ANGLE_UP : ℚ := 160

/-- Threshold `WallAngels.MAX_ARM_ANGLE_UP`. -/
def MAX_ARM_ANGLE_UP : ℚ := 190

/-- Threshold `WallAngels.MAX_ARM_ANGLE_DIFF`. -/
def MAX_ARM_ANGLE_DIFF : ℚ := 20

/-- Threshold `WallAngels.MAX_ELBOW_FORWARD` (0.15, normalized). -/
def MAX_ELBOW_FORWARD : ℚ := 15/100

/-- The position states of `WallAngels` (lines 46-49). -/
inductive WAState where
  | neutral
  | arms_down
  | arms_up
  | transition
  deriving DecidableEq

/-- The metrics dict consumed by `WallAngels.validate_form`, produced by
`WallAngels.calculate_metrics` (lines 155-163).  As for `CatCowMetrics`,
the `all_visible` field models a visibility key a metrics dict may carry;
`WallAngels.validate_form` never reads any visibility key. -/
structure WallAngelsMetrics where
  left_arm_angle : ℚ
  right_arm_angle : ℚ
  arm_symmetry_diff : ℚ
  left_elbow_forward : ℚ
  right_elbow_forward : ℚ
  torso_angle : ℚ
  avg_arm_angle : ℚ
  all_visible : Bool := true
  deriving DecidableEq

/-- Mutable attributes of a `WallAngels` instance (`__init__`, lines 51-68). -/
structure WallAngelsState where
  current_state : WAState
  last_state : WAState
  rep_count : ℕ
  arm_angle_history : List ℚ
  symmetry_violations : ℕ
  elbow_violations : ℕ
  down_position_reached : Bool
  up_position_reached : Bool
  deriving DecidableEq

/-- The attribute values set by `WallAngels.__init__` (lines 51-68). -/
def wallInit : WallAngelsState where
  current_state := WAState.neutral
  last_state := WAState.neutral
  rep_count := 0
  arm_angle_history := []
  symmetry_violations := 0
  elbow_violations := 0
  down_position_reached := false
  up_position_reached := false

/-- Method `WallAngels.reset` (lines 324-333). -/
def wallReset (_s : WallAngelsState) : WallAngelsState where
  current_state := WAState.neutral
  last_state := WAState.neutral
  rep_count := 0
  arm_angle_history := []
  symmetry_violations := 0
  elbow_violations := 0
  down_position_reached := false
  up_position_reached := false

/-- The `details` dict built at lines 294-301 of wall_angels.py. -/
structure WallAngelsDetails where
  state : WAState
  reps : ℕ
  symmetry_violations : ℕ
  elbow_violations : ℕ
  down_reached : Bool
  up_reached : Bool
  deriving DecidableEq

/-- State detection, wall_angels.py lines 187-193: the down band
[`MIN_ARM_ANGLE_DOWN`, `MAX_ARM_ANGLE_DOWN`] is checked first, then the up
band, otherwise the frame is in transition. -/
def wallClassify (avg_arm : ℚ) : WAState :=
  if MIN_ARM_ANGLE_DOWN ≤ avg_arm ∧ avg_arm ≤ MAX_ARM_ANGLE_DOWN then
    WAState.arms_down
  else if MIN_ARM_ANGLE_UP ≤ avg_arm ∧ avg_arm ≤ MAX_ARM_ANGLE_UP then
    WAState.arms_up
  else WAState.transition

/-- Score deduction of the arm-angle check, lines 212-241 (vacuous inside
the down and up bands, reproduced faithfully). -/
def wallArmPenalty (current_state : WAState) (avg_arm : ℚ) : ℚ :=
  if current_state = WAState.arms_down then
    if avg_arm < MIN_ARM_ANGLE_DOWN then 10
    else if avg_arm > MAX_ARM_ANGLE_DOWN then 10
    else 0
  else if current_state = WAState.arms_up then
    if avg_arm < MIN_ARM_ANGLE_UP then 15
    else if avg_arm > MAX_ARM_ANGLE_UP then 10
    else 0
  else 0

/-- The arm-angle check marks the frame incorrect (lines 212-235, the
branches that set `is_correct = False`). -/
def wallArmViolation (current_state : WAState) (avg_arm : ℚ) : Prop :=
  (current_state = WAState.arms_down ∧
    (avg_arm < MIN_ARM_ANGLE_DOWN ∨ avg_arm > MAX_ARM_ANGLE_DOWN)) ∨
  (current_state = WAState.arms_up ∧
    (avg_arm < MIN_ARM_ANGLE_UP ∨ avg_arm > MAX_ARM_ANGLE_UP))

instance (c : WAState) (q : ℚ) : Decidable (wallArmViolation c q) := by
  unfold wallArmViolation; infer_instance

/-- The mutation of the `WallAngels` attributes performed by one
`validate_form` call (wall_angels.py lines 182-266), field by field.
`last_state` is never reassigned by `validate_form`. -/
def wallPostState (s : WallAngelsState) (metrics : WallAngelsMetrics)
    (_frame_count : ℕ) : WallAngelsState where
  -- lines 184-193
  current_state := wallClassify metrics.avg_arm_angle
  last_state := s.last_state
  -- lines 197-204: a rep completes on arms_down with the up flag set
  rep_count :=
    if wallClassify metrics.avg_arm_angle = WAState.arms_down ∧
        s.up_position_reached then s.rep_count + 1
    else s.rep_count
  -- line 182: append to the maxlen-90 deque
  arm_angle_history := dequeAppend 90 s.arm_angle_history metrics.avg_arm_angle
  -- lines 244-248
  symmetry_violations :=
    if metrics.arm_symmetry_diff > MAX_ARM_ANGLE_DIFF then
      s.symmetry_violations + 1
    else s.symmetry_violations
  -- lines 256-266: one increment per offending elbow
  elbow_violations :=
    (if metrics.left_elbow_forward > MAX_ELBOW_FORWARD then
      s.elbow_violations + 1 else s.elbow_violations) +
      (if metrics.right_elbow_forward > MAX_ELBOW_FORWARD then 1 else 0)
  -- lines 197-208
  down_position_reached :=
    if wallClassify metrics.avg_arm_angle = WAState.arms_down then true
    else if wallClassify metrics.avg_arm_angle = WAState.arms_up ∧
        s.down_position_reached then false
    else s.down_position_reached
  up_position_reached :=
    if wallClassify metrics.avg_arm_angle = WAState.arms_down ∧
        s.up_position_reached then false
    else if wallClassify metrics.avg_arm_angle = WAState.arms_up ∧
        s.down_position_reached then true
    else s.up_position_reached

/-- Method `WallAngels.validate_form` (wall_angels.py lines 165-302).  The
`details` dict (lines 294-301) reads the already-mutated attributes, hence
the `wallPostState` projections. -/
def wallValidate (s : WallAngelsState) (metrics : WallAngelsMetrics)
    (frame_count : ℕ) : ValidationResult WallAngelsDetails × WallAngelsState :=
  let left_arm := metrics.left_arm_angle
  let right_arm := metrics.right_arm_angle
  let avg_arm := metrics.avg_arm_angle
  let symmetry := metrics.arm_symmetry_diff
  let post := wallPostState s metrics frame_count
  -- ========== STATE DETECTION (lines 184-193) ==========
  let current_state := wallClassify avg_arm
  -- ========== REP COUNTING feedback (line 202) ==========
  let repFeedback : List String :=
    if current_state = WAState.arms_down ∧ s.up_position_reached then
      ["✓✓✓ REP " ++ toString post.rep_count ++ " COMPLETE!"]
    else []
  -- ========== POSITION VALIDATION ==========
  -- 1. arm angles (lines 212-241)
  let armFeedback : List String :=
    if current_state = WAState.arms_down then
      if avg_arm < MIN_ARM_ANGLE_DOWN then ["⚠️ Raise arms higher to shoulder level"]
      else if avg_arm > MAX_ARM_ANGLE_DOWN then ["⚠️ Lower arms to shoulder level"]
      else ["✓ Good starting position - arms at shoulder level"]
    else if current_state = WAState.arms_up then
      if avg_arm < MIN_ARM_ANGLE_UP then ["⚠️ Raise arms higher - reach overhead"]
      else if avg_arm > MAX_ARM_ANGLE_UP then ["⚠️ Don\x27t over-extend - keep controlled"]
      else ["✓ Excellent! Arms fully raised overhead"]
    else if current_state = WAState.transition then ["→ Move slowly and controlled"]
    else ["ℹ️ Start with arms at shoulder level"]
  -- 2. arm symmetry (lines 244-250)
  let symmetryViolation := symmetry > MAX_ARM_ANGLE_DIFF
  let symmetryFeedback : List String :=
    if symmetryViolation then
      ["⚠️ Keep arms symmetrical - " ++ fmt1 symmetry ++ "° difference"]
    else ["✓ Good arm symmetry"]
  -- 3. elbow position (lines 253-272)
  let left_elbow_fwd := metrics.left_elbow_forward
  let right_elbow_fwd := metrics.right_elbow_forward
  let leftElbowViolation := left_elbow_fwd > MAX_ELBOW_FORWARD
  let rightElbowViolation := right_elbow_fwd > MAX_ELBOW_FORWARD
  let elbowFeedback : List String :=
    (if leftElbowViolation then ["⚠️ Keep LEFT elbow back against wall"] else []) ++
    (if rightElbowViolation then ["⚠️ Keep RIGHT elbow back against wall"] else []) ++
    (if left_elbow_fwd ≤ MAX_ELBOW_FORWARD ∧ right_elbow_fwd ≤ MAX_ELBOW_FORWARD
     then ["✓ Elbows staying close to wall"] else [])
  -- 4. torso alignment (lines 275-277); deducts score but keeps is_correct
  let torsoViolation := metrics.torso_angle > 15
  let torsoFeedback : List String :=
    if torsoViolation then ["⚠️ Keep back flat against wall"] else []
  let score : ℚ :=
    100 - wallArmPenalty current_state avg_arm
      - (if symmetryViolation then 15 else 0)
      - (if leftElbowViolation then 10 else 0)
      - (if rightElbowViolation then 10 else 0)
      - (if torsoViolation then 10 else 0)
  let is_correct : Bool :=
    if wallArmViolation current_state avg_arm ∨ symmetryViolation ∨
        leftElbowViolation ∨ rightElbowViolation
    then false else true
  -- line 282: score = max(0, score); lines 284-302: result
  (⟨is_correct,
    repFeedback ++ armFeedback ++ symmetryFeedback ++ elbowFeedback ++
      torsoFeedback,
    [("left_arm_angle", left_arm), ("right_arm_angle", right_arm),
     ("arm_symmetry", symmetry), ("torso_angle", metrics.torso_angle)],
    max 0 score,
    ⟨post.current_state, post.rep_count, post.symmetry_violations,
      post.elbow_violations, post.down_position_reached,
      post.up_position_reached⟩⟩,
   post)

/-- Folding `WallAngels.validate_form` over a sequence of calls. -/
def wallRun (s : WallAngelsState) : List (WallAngelsMetrics × ℕ) → WallAngelsState
  | [] => s
  | (m, f) :: rest => wallRun (wallValidate s m f).2 rest

/-- The sequence of `ValidationResult`s of a sequence of calls. -/
def wallOutputs (s : WallAngelsState) :
    List (WallAngelsMetrics × ℕ) → List (ValidationResult WallAngelsDetails)
  | [] => []
  | (m, f) :: rest =>
      (wallValidate s m f).1 :: wallOutputs (wallValidate s m f).2 rest

/-! ## Chest Opener / Scapular Retraction (src/exercises/scoliosis/chest_opener.py)

`ChestOpener`: hold requirement (lines 31-33), mutable state (lines 35-49),
`validate_form` (lines 159-338), `reset` (lines 362-370). -/

/-- Constant `ChestOpener.HOLD_DURATION_SECONDS` (seconds to hold at the bottom). -/
def HOLD_DURATION_SECONDS : ℚ := 2

/-- Constant `ChestOpener.HOLD_FRAMES` (2 seconds at 30 fps). -/
def HOLD_FRAMES : ℕ := 60

/-- Attribute `ChestOpener.rep_cooldown_frames` (1 second cooldown between reps,
set in `__init__` line 49 and never reassigned). -/
def rep_cooldown_frames : ℕ := 30

/-- The metrics dict consumed by `ChestOpener.validate_form`, produced by
`ChestOpener.calculate_metrics` (lines 138-157; lines 96-100 when an elbow
is not visible).  The field defaults are the `metrics.get(key, default)`
defaults used by `validate_form` (lines 172-173 default the visibility keys
to True, the remaining `get`s default to False / 0). -/
structure ChestMetrics where
  left_elbow_visible : Bool := true
  right_elbow_visible : Bool := true
  start_position_ok : Bool := false
  left_elbow_at_or_above : Bool := false
  right_elbow_at_or_above : Bool := false
  both_at_or_above_shoulders : Bool := false
  left_elbow_above_shoulder : Bool := false
  right_elbow_above_shoulder : Bool := false
  both_above_shoulders : Bool := false
  left_elbow_below_shoulder : Bool := false
  right_elbow_below_shoulder : Bool := false
  both_below_shoulders : Bool := false
  left_elbow_angle : ℚ := 0
  right_elbow_angle : ℚ := 0
  deriving DecidableEq

/-- Mutable attributes of a `ChestOpener` instance (`__init__`,
lines 35-49). -/
structure ChestState where
  rep_count : ℕ
  in_start_position : Bool
  start_position_validated : Bool
  was_above_shoulders : Bool
  hold_complete : Bool
  hold_counter : ℕ
  last_rep_frame : ℕ
  deriving DecidableEq

/-- The attribute values set by `ChestOpener.__init__` (lines 35-49). -/
def chestInit : ChestState where
  rep_count := 0
  in_start_position := false
  start_position_validated := false
  was_above_shoulders := false
  hold_complete := false
  hold_counter := 0
  last_rep_frame := 0

/-- Method `ChestOpener.reset` (lines 362-370). -/
def chestReset (_s : ChestState) : ChestState where
  rep_count := 0
  in_start_position := false
  start_position_validated := false
  was_above_shoulders := false
  hold_complete := false
  hold_counter := 0
  last_rep_frame := 0

/-- The `details` dicts built by `ChestOpener.validate_form`: the two early
returns (lines 192-195 and 235-238) carry only `reps` and
`in_start_position`; the final return (lines 330-337) carries the full
state snapshot. -/
inductive ChestDetails where
  | basic (reps : ℕ) (in_start_position : Bool)
  | full (reps : ℕ) (in_start_position : Bool) (was_above_shoulders : Bool)
      (hold_frames : ℕ) (hold_seconds : ℚ) (hold_complete : Bool)
  deriving DecidableEq

/-- The `hold_seconds` entry of a details dict that carries one (0 for the
early-return dicts, which carry none). -/
def ChestDetails.holdSeconds : ChestDetails → ℚ
  | ChestDetails.basic _ _ => 0
  | ChestDetails.full _ _ _ _ hold_seconds _ => hold_seconds

/-- Value of `was_above_shoulders` after the one-time validation (line 243, only
reached with `start_position_ok` true when not yet validated) and the
movement tracking at lines 251-252. -/
def chestWasAbove1 (s : ChestState) (metrics : ChestMetrics) : Bool :=
  if metrics.both_at_or_above_shoulders then true
  else if s.start_position_validated = false then true
  else s.was_above_shoulders

/-- The hold condition of line 258: at the bottom with the start position
previously reached. -/
def chestHolding (s : ChestState) (metrics : ChestMetrics) : Prop :=
  metrics.both_below_shoulders = true ∧ chestWasAbove1 s metrics = true

instance (s : ChestState) (m : ChestMetrics) :
    Decidable (chestHolding s m) := by
  unfold chestHolding; infer_instance

/-- Value of `hold_counter` after the increment of line 261 (only while the hold is
not yet complete). -/
def chestHoldCounter1 (s : ChestState) (metrics : ChestMetrics) : ℕ :=
  if chestHolding s metrics ∧ s.hold_complete = false then s.hold_counter + 1
  else s.hold_counter

/-- Value of `hold_complete` after lines 265-267: set once the counter reaches
`HOLD_FRAMES`. -/
def chestHoldComplete1 (s : ChestState) (metrics : ChestMetrics) : Bool :=
  if chestHolding s metrics ∧ s.hold_complete = false ∧
      HOLD_FRAMES ≤ chestHoldCounter1 s metrics then true
  else s.hold_complete

/-- Value of `hold_counter` after the reset of lines 275-280: zeroed when the hold
breaks before completion (never after completion). -/
def chestHoldCounter2 (s : ChestState) (metrics : ChestMetrics) : ℕ :=
  if ¬chestHolding s metrics ∧ 0 < s.hold_counter ∧ s.hold_complete = false then 0
  else chestHoldCounter1 s metrics

/-- The rep condition of lines 283-286: back at start with the hold
complete, past the cooldown (or never counted a rep). -/
def chestRepCounted (s : ChestState) (metrics : ChestMetrics)
    (frame_count : ℕ) : Prop :=
  metrics.start_position_ok = true ∧ chestHoldComplete1 s metrics = true ∧
    ((rep_cooldown_frames : ℤ) ≤ (frame_count : ℤ) - (s.last_rep_frame : ℤ) ∨
      s.last_rep_frame = 0)

instance (s : ChestState) (m : ChestMetrics) (f : ℕ) :
    Decidable (chestRepCounted s m f) := by
  unfold chestRepCounted; infer_instance

/-- The mutation of the `ChestOpener` attributes performed by one
`validate_form` call on the main path (both elbows visible, start position
validated), chest_opener.py lines 240-291, field by field. -/
def chestPostStateMain (s : ChestState) (metrics : ChestMetrics)
    (frame_count : ℕ) : ChestState where
  rep_count :=
    if chestRepCounted s metrics frame_count then s.rep_count + 1
    else s.rep_count
  in_start_position :=
    if metrics.both_at_or_above_shoulders then true else false
  start_position_validated := true
  was_above_shoulders :=
    if chestRepCounted s metrics frame_count then true
    else chestWasAbove1 s metrics
  hold_complete :=
    if chestRepCounted s metrics frame_count then false
    else chestHoldComplete1 s metrics
  hold_counter :=
    if chestRepCounted s metrics frame_count then 0
    else chestHoldCounter2 s metrics
  last_rep_frame :=
    if chestRepCounted s metrics frame_count then frame_count
    else s.last_rep_frame

/-- The mutation of the `ChestOpener` attributes performed by one
`validate_form` call, including the two early returns (lines 185, 224-225). -/
def chestPostState (s : ChestState) (metrics : ChestMetrics)
    (frame_count : ℕ) : ChestState :=
  if metrics.left_elbow_visible = false ∨ metrics.right_elbow_visible = false then
    { s with in_start_position := false }
  else if s.start_position_validated = false ∧ metrics.start_position_ok = false then
    { s with in_start_position := false, was_above_shoulders := false }
  else chestPostStateMain s metrics frame_count

/-- Method `ChestOpener.validate_form` (chest_opener.py lines 159-338). -/
def chestValidate (s : ChestState) (metrics : ChestMetrics)
    (frame_count : ℕ) : ValidationResult ChestDetails × ChestState :=
  -- ========== ELBOW VISIBILITY (lines 171-196) ==========
  if metrics.left_elbow_visible = false ∨ metrics.right_elbow_visible = false then
    let missing : List String :=
      (if metrics.left_elbow_visible = false then ["LEFT elbow"] else []) ++
        (if metrics.right_elbow_visible = false then ["RIGHT elbow"] else [])
    let ms := String.intercalate ", " missing
    (⟨false,
      ["❌ POSITION WRONG: Cannot see " ++ ms ++ " on camera",
       "   Move so both elbows are clearly visible in the frame"],
      [], 0, ChestDetails.basic s.rep_count false⟩,
     { s with in_start_position := false })
  -- ========== ONE-TIME START POSITION VALIDATION (lines 208-239) ==========
  else if s.start_position_validated = false ∧ metrics.start_position_ok = false then
    let position_issues : List String :=
      (if metrics.left_elbow_at_or_above = false then
        ["   • LEFT elbow not at or above shoulder height"] else []) ++
        (if metrics.right_elbow_at_or_above = false then
          ["   • RIGHT elbow not at or above shoulder height"] else [])
    (⟨false,
      ["❌ ERROR: Get into starting position first!"] ++ position_issues ++
        ["   Requirements:", "   • Both elbows must be at shoulder height or above"],
      [("left_elbow_angle", metrics.left_elbow_angle),
       ("right_elbow_angle", metrics.right_elbow_angle)],
      0, ChestDetails.basic s.rep_count false⟩,
     { s with in_start_position := false, was_above_shoulders := false })
  else
    -- lines 240-255: validation flag, movement tracking (chestWasAbove1)
    -- ========== HOLD TRACKING AT BOTTOM POSITION (lines 257-280) ==========
    let hold_counter₁ := chestHoldCounter1 s metrics
    let time_remaining : ℚ :=
      max 0 (HOLD_DURATION_SECONDS - (hold_counter₁ : ℚ) / 30)
    let holdFeedback : List String :=
      if chestHolding s metrics then
        if s.hold_complete = false then
          if HOLD_FRAMES ≤ hold_counter₁ then
            ["✓✓ Hold complete! Now rise back to start position"]
          else ["⏱️ HOLD at bottom - " ++ fmt1 time_remaining ++ "s remaining"]
        else ["✓ Hold complete - rise back to start position for rep"]
      else if 0 < s.hold_counter ∧ s.hold_complete = false ∧ s.hold_counter < HOLD_FRAMES
      then ["⚠️ Hold broken at " ++ fmt1 ((s.hold_counter : ℚ) / 30) ++ "s - maintain position"]
      else []
    -- ========== REP ON RETURN TO START AFTER COMPLETED HOLD (lines 282-318) ==========
    let hold_complete₁ := chestHoldComplete1 s metrics
    let post := chestPostStateMain s metrics frame_count
    let repFeedback : List String :=
      if metrics.start_position_ok = true ∧ hold_complete₁ = true then
        if chestRepCounted s metrics frame_count then
          ["✓✓✓ Rep complete! Returned to start after completing hold!"]
        else ["✓ Back in start position - ready for next rep"]
      else if metrics.start_position_ok = true then
        (if metrics.both_above_shoulders then
          ["✓ Starting position: Elbows above shoulders"]
         else ["✓ Starting position: Elbows at shoulder height"]) ++
          ["   Left: " ++ fmt0 metrics.left_elbow_angle ++ "° | Right: " ++
            fmt0 metrics.right_elbow_angle ++ "°"] ++
          (if hold_complete₁ = false then
            ["→ Lower elbows below shoulder level, hold 2s, then rise back"]
           else ["→ Lower elbows below shoulder level again for next rep"])
      else if metrics.both_below_shoulders then []
      else if metrics.left_elbow_below_shoulder ∨ metrics.right_elbow_below_shoulder then
        ["⚠️ Only one elbow below shoulder - lower both"]
      else if hold_complete₁ = true then
        ["→ Rise back to start position to complete rep"]
      else ["→ Lower elbows below shoulder level, hold 2s, then rise back"]
    -- line 320: score = max(0, score) with score never deducted on this
    -- path; the details dict (lines 330-337) reads the mutated attributes
    (⟨true, holdFeedback ++ repFeedback,
      [("left_elbow_angle", metrics.left_elbow_angle),
       ("right_elbow_angle", metrics.right_elbow_angle)],
      max 0 100,
      ChestDetails.full post.rep_count post.in_start_position
        post.was_above_shoulders post.hold_counter
        ((post.hold_counter : ℚ) / 30) post.hold_complete⟩,
     post)

/-- Folding `ChestOpener.validate_form` over a sequence of calls. -/
def chestRun (s : ChestState) : List (ChestMetrics × ℕ) → ChestState
  | [] => s
  | (m, f) :: rest => chestRun (chestValidate s m f).2 rest

/-- The sequence of `ValidationResult`s of a sequence of calls. -/
def chestOutputs (s : ChestState) :
    List (ChestMetrics × ℕ) → List (ValidationResult ChestDetails)
  | [] => []
  | (m, f) :: rest =>
      (chestValidate s m f).1 :: chestOutputs (chestValidate s m f).2 rest

/-! ## Neck Side-to-Side (src/exercises/scoliosis/neck_side_to_side.py)

`NeckSideToSide`: midline constant (line 24), mutable state (lines 26-32),
`calculate_metrics` (lines 54-133), `validate_form` (lines 135-279),
`reset` (lines 296-302). -/

/-- Constant `NeckSideToSide.MIDPOINT_X` (normalized vertical midline). -/
def MIDPOINT_X : ℚ := 1/2

/-- The metrics dict produced by `NeckSideToSide.calculate_metrics` and
consumed by `NeckSideToSide.validate_form`.  When `all_visible` is false
the source dict carries only `missing_points` and `all_visible`
(lines 63-68); the remaining fields' declared defaults model those absent
keys (the validator returns before reading them). -/
structure NeckMetrics where
  all_visible : Bool := true
  missing_points : List String := []
  left_shoulder_x : ℚ := 0
  right_shoulder_x : ℚ := 0
  left_elbow_x : ℚ := 0
  right_elbow_x : ℚ := 0
  left_wrist_x : ℚ := 0
  right_wrist_x : ℚ := 0
  left_shoulder_crossed_right : Bool := false
  right_shoulder_crossed_right : Bool := false
  left_elbow_crossed_right : Bool := false
  right_elbow_crossed_right : Bool := false
  left_wrist_crossed_right : Bool := false
  right_wrist_crossed_right : Bool := false
  all_crossed_right : Bool := false
  left_shoulder_crossed_left : Bool := false
  right_shoulder_crossed_left : Bool := false
  left_elbow_crossed_left : Bool := false
  right_elbow_crossed_left : Bool := false
  left_wrist_crossed_left : Bool := false
  right_wrist_crossed_left : Bool := false
  all_crossed_left : Bool := false
  deriving DecidableEq

/-- Method `NeckSideToSide.calculate_metrics` (lines 54-133).  The source takes
the landmark dict; only the x-coordinate of each of the six tracked points
is read (lines 78-83), so the embedding takes those six x-coordinates
together with the two visibility sentinels that src/main.py attaches to the
landmark dict (`'_all_visible'`, `'_missing_points'`). -/
def neckCalculateMetrics (all_visible : Bool) (missing_points : List String)
    (left_shoulder_x right_shoulder_x left_elbow_x right_elbow_x
      left_wrist_x right_wrist_x : ℚ) : NeckMetrics :=
  if all_visible = false then
    { all_visible := false, missing_points := missing_points }
  else
    let left_shoulder_crossed_right := decide (left_shoulder_x > MIDPOINT_X)
    let right_shoulder_crossed_right := decide (right_shoulder_x > MIDPOINT_X)
    let left_elbow_crossed_right := decide (left_elbow_x > MIDPOINT_X)
    let right_elbow_crossed_right := decide (right_elbow_x > MIDPOINT_X)
    let left_wrist_crossed_right := decide (left_wrist_x > MIDPOINT_X)
    let right_wrist_crossed_right := decide (right_wrist_x > MIDPOINT_X)
    let all_crossed_right :=
      left_shoulder_crossed_right && right_shoulder_crossed_right &&
        left_elbow_crossed_right && right_elbow_crossed_right &&
        left_wrist_crossed_right && right_wrist_crossed_right
    let left_shoulder_crossed_left := decide (left_shoulder_x < MIDPOINT_X)
    let right_shoulder_crossed_left := decide (right_shoulder_x < MIDPOINT_X)
    let left_elbow_crossed_left := decide (left_elbow_x < MIDPOINT_X)
    let right_elbow_crossed_left := decide (right_elbow_x < MIDPOINT_X)
    let left_wrist_crossed_left := decide (left_wrist_x < MIDPOINT_X)
    let right_wrist_crossed_left := decide (right_wrist_x < MIDPOINT_X)
    let all_crossed_left :=
      left_shoulder_crossed_left && right_shoulder_crossed_left &&
        left_elbow_crossed_left && right_elbow_crossed_left &&
        left_wrist_crossed_left && right_wrist_crossed_left
    { all_visible := true
      missing_points := []
      left_shoulder_x := left_shoulder_x
      right_shoulder_x := right_shoulder_x
      left_elbow_x := left_elbow_x
      right_elbow_x := right_elbow_x
      left_wrist_x := left_wrist_x
      right_wrist_x := right_wrist_x
      left_shoulder_crossed_right := left_shoulder_crossed_right
      right_shoulder_crossed_right := right_shoulder_crossed_right
      left_elbow_crossed_right := left_elbow_crossed_right
      right_elbow_crossed_right := right_elbow_crossed_right
      left_wrist_crossed_right := left_wrist_crossed_right
      right_wrist_crossed_right := right_wrist_crossed_right
      all_crossed_right := all_crossed_right
      left_shoulder_crossed_left := left_shoulder_crossed_left
      right_shoulder_crossed_left := right_shoulder_crossed_left
      left_elbow_crossed_left := left_elbow_crossed_left
      right_elbow_crossed_left := right_elbow_crossed_left
      left_wrist_crossed_left := left_wrist_crossed_left
      right_wrist_crossed_left := right_wrist_crossed_left
      all_crossed_left := all_crossed_left }

/-- Mutable attributes of a `NeckSideToSide` instance (`__init__`,
lines 26-32). -/
structure NeckState where
  rep_count : ℕ
  left_reps : ℕ
  right_reps : ℕ
  left_was_crossed : Bool
  right_was_crossed : Bool
  deriving DecidableEq

/-- The attribute values set by `NeckSideToSide.__init__` (lines 26-32). -/
def neckInit : NeckState where
  rep_count := 0
  left_reps := 0
  right_reps := 0
  left_was_crossed := false
  right_was_crossed := false

/-- Method `NeckSideToSide.reset` (lines 296-302). -/
def neckReset (_s : NeckState) : NeckState where
  rep_count := 0
  left_reps := 0
  right_reps := 0
  left_was_crossed := false
  right_was_crossed := false

/-- The details dicts built by `NeckSideToSide.validate_form`: the
visibility early return (lines 167-170) versus the final return
(lines 272-278). -/
inductive NeckDetails where
  | notVisible (missing_points : List String) (all_visible : Bool)
  | visible (all_crossed_right all_crossed_left : Bool)
      (reps left_reps right_reps : ℕ)
  deriving DecidableEq

/-- Display names of the six tracked points (lines 148-155). -/
def neckPointName (p : String) : String :=
  if p = "LEFT_SHOULDER" then "Left shoulder"
  else if p = "RIGHT_SHOULDER" then "Right shoulder"
  else if p = "LEFT_ELBOW" then "Left elbow"
  else if p = "RIGHT_ELBOW" then "Right elbow"
  else if p = "LEFT_WRIST" then "Left wrist"
  else if p = "RIGHT_WRIST" then "Right wrist"
  else p

/-- The per-point right-tilt miss list (lines 183-195). -/
def neckMissingRight (m : NeckMetrics) : List String :=
  (if m.left_shoulder_crossed_right = false then ["Left shoulder"] else []) ++
    (if m.right_shoulder_crossed_right = false then ["Right shoulder"] else []) ++
    (if m.left_elbow_crossed_right = false then ["Left elbow"] else []) ++
    (if m.right_elbow_crossed_right = false then ["Right elbow"] else []) ++
    (if m.left_wrist_crossed_right = false then ["Left wrist"] else []) ++
    (if m.right_wrist_crossed_right = false then ["Right wrist"] else [])

/-- The per-point left-tilt miss list (lines 215-227). -/
def neckMissingLeft (m : NeckMetrics) : List String :=
  (if m.left_shoulder_crossed_left = false then ["Left shoulder"] else []) ++
    (if m.right_shoulder_crossed_left = false then ["Right shoulder"] else []) ++
    (if m.left_elbow_crossed_left = false then ["Left elbow"] else []) ++
    (if m.right_elbow_crossed_left = false then ["Right elbow"] else []) ++
    (if m.left_wrist_crossed_left = false then ["Left wrist"] else []) ++
    (if m.right_wrist_crossed_left = false then ["Right wrist"] else [])

/-- The falling edge of the rightward crossing (line 246): the all-crossed
condition just became false while the flag was set. -/
def neckRightFallingEdge (s : NeckState) (metrics : NeckMetrics) : Prop :=
  metrics.all_crossed_right = false ∧ s.right_was_crossed = true

instance (s : NeckState) (m : NeckMetrics) :
    Decidable (neckRightFallingEdge s m) := by
  unfold neckRightFallingEdge; infer_instance

/-- The falling edge of the leftward crossing (line 254). -/
def neckLeftFallingEdge (s : NeckState) (metrics : NeckMetrics) : Prop :=
  metrics.all_crossed_left = false ∧ s.left_was_crossed = true

instance (s : NeckState) (m : NeckMetrics) :
    Decidable (neckLeftFallingEdge s m) := by
  unfold neckLeftFallingEdge; infer_instance

/-- The mutation of the `NeckSideToSide` attributes performed by one
`validate_form` call (neck_side_to_side.py lines 243-258; the visibility
early return at lines 162-171 leaves the state untouched), field by field.
`rep_count` receives one increment per falling edge (lines 248 and 256). -/
def neckPostState (s : NeckState) (metrics : NeckMetrics)
    (_frame_count : ℕ) : NeckState :=
  if metrics.all_visible = false then s
  else
    { rep_count :=
        (if neckRightFallingEdge s metrics then s.rep_count + 1
         else s.rep_count) +
          (if neckLeftFallingEdge s metrics then 1 else 0)
      left_reps :=
        if neckLeftFallingEdge s metrics then s.left_reps + 1 else s.left_reps
      right_reps :=
        if neckRightFallingEdge s metrics then s.right_reps + 1 else s.right_reps
      left_was_crossed :=
        if metrics.all_crossed_left = true ∧ s.left_was_crossed = false then true
        else if neckLeftFallingEdge s metrics then false
        else s.left_was_crossed
      right_was_crossed :=
        if metrics.all_crossed_right = true ∧ s.right_was_crossed = false then true
        else if neckRightFallingEdge s metrics then false
        else s.right_was_crossed }

/-- Method `NeckSideToSide.validate_form` (neck_side_to_side.py lines 135-279). -/
def neckValidate (s : NeckState) (metrics : NeckMetrics)
    (frame_count : ℕ) : ValidationResult NeckDetails × NeckState :=
  -- ========== VISIBILITY GATE (lines 145-171) ==========
  if metrics.all_visible = false then
    let missing_names := metrics.missing_points.map neckPointName
    (⟨false,
      ["❌ ERROR: Cannot see all required points!",
       "   Missing: " ++ String.intercalate ", " missing_names,
       "   Please move into frame so all points are visible",
       "   Make sure both arms are fully visible in the camera"],
      [], 0, NeckDetails.notVisible metrics.missing_points false⟩,
     s)
  else
    let all_crossed_right := metrics.all_crossed_right
    let all_crossed_left := metrics.all_crossed_left
    -- ========== RIGHT TILT CHECK (lines 176-205) ==========
    let missingR := neckMissingRight metrics
    let rightFeedback : List String :=
      if all_crossed_right = true then
        ["✓✓✓ RIGHT TILT: All points (shoulders, elbows, wrists) crossed midpoint!"]
      else if missingR ≠ [] then
        ["⚠️ RIGHT TILT: " ++ String.intercalate ", " missingR ++ " not crossing midpoint",
         "   All 6 points must cross together (x > 0.5)"]
      else ["→ Tilt head RIGHT - all points should cross midpoint"]
    let score₁ : ℚ :=
      if all_crossed_right = true then 100
      else if missingR ≠ [] then ((6 - (missingR.length : ℚ)) / 6) * 100
      else 0
    -- ========== LEFT TILT CHECK (lines 207-238) ==========
    let missingL := neckMissingLeft metrics
    let leftFeedback : List String :=
      if all_crossed_left = true then
        ["✓✓✓ LEFT TILT: All points (shoulders, elbows, wrists) crossed midpoint!"]
      else if all_crossed_right = false then
        if missingL ≠ [] then
          ["⚠️ LEFT TILT: " ++ String.intercalate ", " missingL ++ " not crossing midpoint",
           "   All 6 points must cross together (x < 0.5)"]
        else if score₁ = 0 then
          ["→ Tilt head LEFT - all points should cross midpoint"]
        else []
      else []
    let score₂ : ℚ :=
      if all_crossed_left = true then 100
      else if all_crossed_right = false then
        if missingL ≠ [] then ((6 - (missingL.length : ℚ)) / 6) * 100 else 0
      else score₁
    let is_correct : Bool :=
      if all_crossed_right = true ∨ all_crossed_left = true then true else false
    -- ========== REP COUNTING (lines 243-258) ==========
    let post := neckPostState s metrics frame_count
    let rightRepFeedback : List String :=
      if neckRightFallingEdge s metrics then
        ["✓✓✓ RIGHT REP " ++ toString post.right_reps ++ " COMPLETE!"]
      else []
    let leftRepFeedback : List String :=
      if neckLeftFallingEdge s metrics then
        ["✓✓✓ LEFT REP " ++ toString post.left_reps ++ " COMPLETE!"]
      else []
    -- the details dict (lines 272-278) reads the mutated attributes
    (⟨is_correct,
      rightFeedback ++ leftFeedback ++ rightRepFeedback ++ leftRepFeedback,
      [("left_shoulder_x", metrics.left_shoulder_x * 100),
       ("right_shoulder_x", metrics.right_shoulder_x * 100),
       ("left_elbow_x", metrics.left_elbow_x * 100),
       ("right_elbow_x", metrics.right_elbow_x * 100),
       ("left_wrist_x", metrics.left_wrist_x * 100),
       ("right_wrist_x", metrics.right_wrist_x * 100)],
      score₂,
      NeckDetails.visible all_crossed_right all_crossed_left post.rep_count
        post.left_reps post.right_reps⟩,
     post)

/-- Folding `NeckSideToSide.validate_form` over a sequence of calls. -/
def neckRun (s : NeckState) : List (NeckMetrics × ℕ) → NeckState
  | [] => s
  | (m, f) :: rest => neckRun (neckValidate s m f).2 rest

/-- The sequence of `ValidationResult`s of a sequence of calls. -/
def neckOutputs (s : NeckState) :
    List (NeckMetrics × ℕ) → List (ValidationResult NeckDetails)
  | [] => []
  | (m, f) :: rest =>
      (neckValidate s m f).1 :: neckOutputs (neckValidate s m f).2 rest

/-! ## Three-point angle helpers (cat_cow.py lines 395-413 and
src/angle_calculator.py lines 21-61)

These are the only floating-point routines a claim is about; their
substance (square roots, inverse cosine, clamping) is modelled over ℝ. -/

/-- A 3D landmark point as consumed by `AngleCalculator.calculate_angle`
(only x and y are read, line 44: "ignore z for simplicity"). -/
structure Pt3 where
  x : ℝ
  y : ℝ
  z : ℝ

/-- The distance `a` of `CatCowPose._calculate_angle` (line 401). -/
noncomputable def catCowDistA (p1 p2 : ℝ × ℝ) : ℝ :=
  Real.sqrt ((p2.1 - p1.1) ^ 2 + (p2.2 - p1.2) ^ 2)

/-- The distance `b` of `CatCowPose._calculate_angle` (line 402). -/
noncomputable def catCowDistB (p2 p3 : ℝ × ℝ) : ℝ :=
  Real.sqrt ((p3.1 - p2.1) ^ 2 + (p3.2 - p2.2) ^ 2)

/-- The distance `c` of `CatCowPose._calculate_angle` (line 403). -/
noncomputable def catCowDistC (p1 p3 : ℝ × ℝ) : ℝ :=
  Real.sqrt ((p3.1 - p1.1) ^ 2 + (p3.2 - p1.2) ^ 2)

/-- The clamped law-of-cosines argument of `CatCowPose._calculate_angle`
(lines 410-411): `cos_angle = max(-1, min(1, cos_angle))`. -/
noncomputable def catCowCosAngleClamped (p1 p2 p3 : ℝ × ℝ) : ℝ :=
  let a := catCowDistA p1 p2
  let b := catCowDistB p2 p3
  let c := catCowDistC p1 p3
  max (-1) (min 1 ((a ^ 2 + b ^ 2 - c ^ 2) / (2 * a * b)))

open scoped Classical in
/-- Method `CatCowPose._calculate_angle` (cat_cow.py lines 395-413): law of
cosines on the 2D projection, `0` when a vertex-side distance product is
zero (line 406-407), the cosine clamped before `math.acos`, and the result
converted by `math.degrees`. -/
noncomputable def catCow_calculate_angle (p1 p2 p3 : ℝ × ℝ) : ℝ :=
  let a := catCowDistA p1 p2
  let b := catCowDistB p2 p3
  if a * b = 0 then 0
  else Real.arccos (catCowCosAngleClamped p1 p2 p3) * (180 / Real.pi)

/-- The epsilon-guarded denominator of `AngleCalculator.calculate_angle`
(angle_calculator.py line 54): `norm(ba) * norm(bc) + 1e-6`. -/
noncomputable def angleCalcDenominator (p1 p2 p3 : Pt3) : ℝ :=
  Real.sqrt ((p1.x - p2.x) ^ 2 + (p1.y - p2.y) ^ 2) *
      Real.sqrt ((p3.x - p2.x) ^ 2 + (p3.y - p2.y) ^ 2) +
    1 / 1000000

/-- The clipped cosine of `AngleCalculator.calculate_angle`
(angle_calculator.py lines 54-57): the dot product over the epsilon-guarded
denominator, clipped by `np.clip(cosine_angle, -1.0, 1.0)`. -/
noncomputable def angleCalcCosClipped (p1 p2 p3 : Pt3) : ℝ :=
  let dot := (p1.x - p2.x) * (p3.x - p2.x) + (p1.y - p2.y) * (p3.y - p2.y)
  max (-1) (min 1 (dot / angleCalcDenominator p1 p2 p3))

/-- Method `AngleCalculator.calculate_angle` (angle_calculator.py lines 21-61). -/
noncomputable def angleCalculator_calculate_angle (p1 p2 p3 : Pt3) : ℝ :=
  Real.arccos (angleCalcCosClipped p1 p2 p3) * (180 / Real.pi)

/-- The criteria of `CatCowPose.validate_form` that set `is_correct = False`
(cat_cow.py lines 238-284): over-flexion past `MAX_SPINE_FLEX` (which puts
the frame in the Cat band, lines 243-246), over-extension past
`MAX_SPINE_EXT` (Cow band, lines 255-258), shoulder-wrist misalignment,
hip-knee misalignment, and left-right asymmetry beyond 15°. -/
def catCowHardViolation (m : CatCowMetrics) : Prop :=
  m.spine_curvature < -MAX_SPINE_FLEX ∨ MAX_SPINE_EXT < m.spine_curvature ∨
    SHOULDER_WRIST_TOLERANCE < m.shoulder_alignment ∨
    HIP_KNEE_TOLERANCE < m.hip_alignment ∨ 15 < m.symmetry_diff

/-- The criteria of `WallAngels.validate_form` that set `is_correct = False`
and are reachable (wall_angels.py lines 244-266): asymmetry beyond
`MAX_ARM_ANGLE_DIFF` and either elbow more than `MAX_ELBOW_FORWARD` off the
wall (the in-band arm-angle branches of lines 213-235 cannot fire, since
the state classification already places `avg_arm` inside the band). -/
def wallHardViolation (m : WallAngelsMetrics) : Prop :=
  MAX_ARM_ANGLE_DIFF < m.arm_symmetry_diff ∨
    MAX_ELBOW_FORWARD < m.left_elbow_forward ∨
    MAX_ELBOW_FORWARD < m.right_elbow_forward

/-- The criteria of `ChestOpener.validate_form` that set
`is_correct = False` (chest_opener.py lines 175-196 and 209-239): an elbow
not visible, or the one-time start-position check failing while not yet
validated. -/
def chestHardViolation (s : ChestState) (m : ChestMetrics) : Prop :=
  m.left_elbow_visible = false ∨ m.right_elbow_visible = false ∨
    (s.start_position_validated = false ∧ m.start_position_ok = false)

/-- The criteria of `NeckSideToSide.validate_form` that leave
`is_correct = False` (neck_side_to_side.py lines 142-238): the visibility
gate firing, or neither the full rightward nor the full leftward crossing
being achieved. -/
def neckHardViolation (m : NeckMetrics) : Prop :=
  m.all_visible = false ∨
    (m.all_crossed_right = false ∧ m.all_crossed_left = false)

/-- The "down" band of the Wall Angels state detection (lines 188-189). -/
def wallDownBand (q : ℚ) : Prop :=
  MIN_ARM_ANGLE_DOWN ≤ q ∧ q ≤ MAX_ARM_ANGLE_DOWN

/-- The "up" band of the Wall Angels state detection (lines 190-191). -/
def wallUpBand (q : ℚ) : Prop :=
  MIN_ARM_ANGLE_UP ≤ q ∧ q ≤ MAX_ARM_ANGLE_UP

/-- Metrics of a frame in the start position (both elbows at or at most the
tolerance above shoulder height): what `ChestOpener.calculate_metrics`
yields at lines 138-157 when both elbows are at or above the shoulders. -/
def chestStartMetrics : ChestMetrics where
  start_position_ok := true
  left_elbow_at_or_above := true
  right_elbow_at_or_above := true
  both_at_or_above_shoulders := true

/-- Metrics of a frame at the bottom position (both elbows below the
shoulders). -/
def chestBottomMetrics : ChestMetrics where
  left_elbow_below_shoulder := true
  right_elbow_below_shoulder := true
  both_below_shoulders := true

/-- Metrics of a frame that breaks the bottom-hold criterion without
reaching the start position (only the left elbow below the shoulder). -/
def chestBreakMetrics : ChestMetrics where
  left_elbow_below_shoulder := true

/-- The instance state after a validated start followed by `n` consecutive
bottom-position frames (`n ≤ HOLD_FRAMES`). -/
def chestHoldState (n : ℕ) : ChestState where
  rep_count := 0
  in_start_position := if n = 0 then true else false
  start_position_validated := true
  was_above_shoulders := true
  hold_complete := if 60 ≤ n then true else false
  hold_counter := n
  last_rep_frame := 0

/-- The x-coordinates of the six tracked points of one frame, as read by
`NeckSideToSide.calculate_metrics` (lines 78-83). -/
structure NeckPoints where
  left_shoulder_x : ℚ
  right_shoulder_x : ℚ
  left_elbow_x : ℚ
  right_elbow_x : ℚ
  left_wrist_x : ℚ
  right_wrist_x : ℚ

/-- The metrics of a fully visible frame with the given six points. -/
def neckMetricsOf (p : NeckPoints) : NeckMetrics :=
  neckCalculateMetrics true [] p.left_shoulder_x p.right_shoulder_x
    p.left_elbow_x p.right_elbow_x p.left_wrist_x p.right_wrist_x

/-- All six tracked points are across the midline to the right
(x > 0.5). -/
def neckAllRight (p : NeckPoints) : Prop :=
  MIDPOINT_X < p.left_shoulder_x ∧ MIDPOINT_X < p.right_shoulder_x ∧
    MIDPOINT_X < p.left_elbow_x ∧ MIDPOINT_X < p.right_elbow_x ∧
    MIDPOINT_X < p.left_wrist_x ∧ MIDPOINT_X < p.right_wrist_x

/-- All six tracked points are across the midline to the left (x < 0.5). -/
def neckAllLeft (p : NeckPoints) : Prop :=
  p.left_shoulder_x < MIDPOINT_X ∧ p.right_shoulder_x < MIDPOINT_X ∧
    p.left_elbow_x < MIDPOINT_X ∧ p.right_elbow_x < MIDPOINT_X ∧
    p.left_wrist_x < MIDPOINT_X ∧ p.right_wrist_x < MIDPOINT_X

/-- The hold-counter invariant of the Chest Opener state: the counter never
exceeds `HOLD_FRAMES`, and strictly below it while the hold is not yet
complete. -/
def chestCounterInvariant (s : ChestState) : Prop :=
  s.hold_counter ≤ 60 ∧ (s.hold_complete = false → s.hold_counter < 60)

/-! ## Lemmas and claim theorems -/

/-! ## Helper lemmas -/

lemma catCowValidate_snd (s : CatCowState) (m : CatCowMetrics) (f : ℕ) :
    (catCowValidate s m f).2 = catCowPostState s m f := rfl

lemma wallValidate_snd (s : WallAngelsState) (m : WallAngelsMetrics) (f : ℕ) :
    (wallValidate s m f).2 = wallPostState s m f := rfl

lemma chestValidate_snd (s : ChestState) (m : ChestMetrics) (f : ℕ) :
    (chestValidate s m f).2 = chestPostState s m f := by
  unfold chestValidate chestPostState
  split_ifs <;> rfl

lemma neckValidate_snd (s : NeckState) (m : NeckMetrics) (f : ℕ) :
    (neckValidate s m f).2 = neckPostState s m f := by
  unfold neckValidate neckPostState
  split_ifs <;> rfl

lemma catCow_step_rep_mono (s : CatCowState) (m : CatCowMetrics) (f : ℕ) :
    s.rep_count ≤ ((catCowValidate s m f).2).rep_count := by
  rw [catCowValidate_snd]
  unfold catCowPostState
  dsimp only
  split_ifs <;> linarith

lemma catCow_run_rep_mono (s : CatCowState) (ms : List (CatCowMetrics × ℕ)) :
    s.rep_count ≤ (catCowRun s ms).rep_count := by
  induction ms generalizing s with
  | nil => exact le_refl _
  | cons p rest ih =>
      exact le_trans (catCow_step_rep_mono s p.1 p.2) (ih _)

lemma wall_step_rep_mono (s : WallAngelsState) (m : WallAngelsMetrics) (f : ℕ) :
    s.rep_count ≤ ((wallValidate s m f).2).rep_count := by
  rw [wallValidate_snd]
  unfold wallPostState
  dsimp only
  split_ifs <;> omega

lemma wall_run_rep_mono (s : WallAngelsState) (ms : List (WallAngelsMetrics × ℕ)) :
    s.rep_count ≤ (wallRun s ms).rep_count := by
  induction ms generalizing s with
  | nil => exact le_refl _
  | cons p rest ih =>
      exact le_trans (wall_step_rep_mono s p.1 p.2) (ih _)

lemma chest_step_rep_mono (s : ChestState) (m : ChestMetrics) (f : ℕ) :
    s.rep_count ≤ ((chestValidate s m f).2).rep_count := by
  rw [chestValidate_snd]
  unfold chestPostState chestPostStateMain
  split_ifs <;> dsimp only <;> omega

lemma chest_run_rep_mono (s : ChestState) (ms : List (ChestMetrics × ℕ)) :
    s.rep_count ≤ (chestRun s ms).rep_count := by
  induction ms generalizing s with
  | nil => exact le_refl _
  | cons p rest ih =>
      exact le_trans (chest_step_rep_mono s p.1 p.2) (ih _)

lemma neck_step_rep_mono (s : NeckState) (m : NeckMetrics) (f : ℕ) :
    s.rep_count ≤ ((neckValidate s m f).2).rep_count := by
  rw [neckValidate_snd]
  unfold neckPostState
  split_ifs <;> first | omega | (dsimp only; omega)

lemma neck_run_rep_mono (s : NeckState) (ms : List (NeckMetrics × ℕ)) :
    s.rep_count ≤ (neckRun s ms).rep_count := by
  induction ms generalizing s with
  | nil => exact le_refl _
  | cons p rest ih =>
      exact le_trans (neck_step_rep_mono s p.1 p.2) (ih _)

lemma catCowTempoPenalty_nonneg (t : ℚ) : 0 ≤ catCowTempoPenalty t := by
  unfold catCowTempoPenalty; split_ifs <;> norm_num

lemma catCowSpinePenalty_nonneg (c : CCState) (q : ℚ) :
    0 ≤ catCowSpinePenalty c q := by
  unfold catCowSpinePenalty; split_ifs <;> norm_num

lemma catCow_score_bounds (s : CatCowState) (m : CatCowMetrics) (f : ℕ) :
    0 ≤ (catCowValidate s m f).1.score ∧ (catCowValidate s m f).1.score ≤ 100 := by
  have h1 := catCowTempoPenalty_nonneg (catCowTransitionTime s f)
  have h2 := catCowSpinePenalty_nonneg (catCowClassify m.spine_curvature)
    m.spine_curvature
  simp only [catCowValidate]
  refine ⟨le_max_left 0 _, max_le (by norm_num) ?_⟩
  split_ifs <;> linarith

lemma wallArmPenalty_nonneg (c : WAState) (q : ℚ) : 0 ≤ wallArmPenalty c q := by
  unfold wallArmPenalty; split_ifs <;> norm_num

lemma wall_score_bounds (s : WallAngelsState) (m : WallAngelsMetrics) (f : ℕ) :
    0 ≤ (wallValidate s m f).1.score ∧ (wallValidate s m f).1.score ≤ 100 := by
  have h1 := wallArmPenalty_nonneg (wallClassify m.avg_arm_angle) m.avg_arm_angle
  simp only [wallValidate]
  refine ⟨le_max_left 0 _, max_le (by norm_num) ?_⟩
  split_ifs <;> linarith

lemma chest_score_bounds (s : ChestState) (m : ChestMetrics) (f : ℕ) :
    0 ≤ (chestValidate s m f).1.score ∧ (chestValidate s m f).1.score ≤ 100 := by
  simp only [chestValidate]
  split_ifs <;> norm_num

lemma neckMissingRight_length_le (m : NeckMetrics) :
    (neckMissingRight m).length ≤ 6 := by
  unfold neckMissingRight; split_ifs <;> simp

lemma neckMissingLeft_length_le (m : NeckMetrics) :
    (neckMissingLeft m).length ≤ 6 := by
  unfold neckMissingLeft; split_ifs <;> simp

lemma neckPartialScore_nonneg (n : ℕ) (h : n ≤ 6) :
    0 ≤ ((6 : ℚ) - n) / 6 * 100 := by
  have hn : (n : ℚ) ≤ 6 := by exact_mod_cast h
  apply mul_nonneg (div_nonneg (by linarith) (by norm_num)) (by norm_num)

lemma neckPartialScore_le (n : ℕ) : ((6 : ℚ) - n) / 6 * 100 ≤ 100 := by
  have hn : (0 : ℚ) ≤ n := n.cast_nonneg
  rw [div_mul_eq_mul_div, div_le_iff₀ (by norm_num)]
  linarith

lemma neck_score_bounds (s : NeckState) (m : NeckMetrics) (f : ℕ) :
    0 ≤ (neckValidate s m f).1.score ∧ (neckValidate s m f).1.score ≤ 100 := by
  simp only [neckValidate]
  split_ifs <;> constructor <;>
    first
      | exact neckPartialScore_nonneg _ (neckMissingRight_length_le m)
      | exact neckPartialScore_nonneg _ (neckMissingLeft_length_le m)
      | exact neckPartialScore_le _
      | norm_num

lemma catCowClassify_cat {q : ℚ} (h : q < -MIN_SPINE_FLEX) :
    catCowClassify q = CCState.cat := by
  unfold catCowClassify; rw [if_pos h]

lemma catCowClassify_cow {q : ℚ} (h1 : ¬q < -MIN_SPINE_FLEX)
    (h2 : q > MIN_SPINE_EXT) : catCowClassify q = CCState.cow := by
  unfold catCowClassify; rw [if_neg h1, if_pos h2]

lemma catCowClassify_neutral {q : ℚ} (h1 : ¬q < -MIN_SPINE_FLEX)
    (h2 : ¬q > MIN_SPINE_EXT) : catCowClassify q = CCState.neutral := by
  unfold catCowClassify; rw [if_neg h1, if_neg h2]

lemma catCow_hard_incorrect (s : CatCowState) (m : CatCowMetrics) (f : ℕ)
    (h : catCowHardViolation m) :
    (catCowValidate s m f).1.is_correct = false := by
  simp only [catCowValidate]
  rw [if_pos]
  rcases h with h | h | h | h | h
  · left
    have hc : catCowClassify m.spine_curvature = CCState.cat :=
      catCowClassify_cat (by unfold MIN_SPINE_FLEX; unfold MAX_SPINE_FLEX at h; linarith)
    exact Or.inl ⟨hc, Or.inr h⟩
  · left
    have hc : catCowClassify m.spine_curvature = CCState.cow :=
      catCowClassify_cow
        (by unfold MIN_SPINE_FLEX; unfold MAX_SPINE_EXT at h; push_neg; linarith)
        (by unfold MIN_SPINE_EXT; unfold MAX_SPINE_EXT at h; linarith)
    exact Or.inr ⟨hc, Or.inr h⟩
  · exact Or.inr (Or.inl h)
  · exact Or.inr (Or.inr (Or.inl h))
  · exact Or.inr (Or.inr (Or.inr h))

lemma wall_hard_incorrect (s : WallAngelsState) (m : WallAngelsMetrics)
    (f : ℕ) (h : wallHardViolation m) :
    (wallValidate s m f).1.is_correct = false := by
  simp only [wallValidate]
  rw [if_pos]
  rcases h with h | h | h
  · exact Or.inr (Or.inl h)
  · exact Or.inr (Or.inr (Or.inl h))
  · exact Or.inr (Or.inr (Or.inr h))

lemma chest_hard_incorrect (s : ChestState) (m : ChestMetrics) (f : ℕ)
    (h : chestHardViolation s m) :
    (chestValidate s m f).1.is_correct = false := by
  unfold chestValidate
  by_cases hv : m.left_elbow_visible = false ∨ m.right_elbow_visible = false
  · rw [if_pos hv]
  · rw [if_neg hv]
    have hs : s.start_position_validated = false ∧ m.start_position_ok = false := by
      rcases h with h | h | h
      · exact absurd (Or.inl h) hv
      · exact absurd (Or.inr h) hv
      · exact h
    rw [if_pos hs]

lemma neck_hard_incorrect (s : NeckState) (m : NeckMetrics) (f : ℕ)
    (h : neckHardViolation m) :
    (neckValidate s m f).1.is_correct = false := by
  unfold neckValidate
  by_cases hv : m.all_visible = false
  · rw [if_pos hv]
  · rw [if_neg hv]
    rcases h with h | h
    · exact absurd h hv
    · simp only
      rw [if_neg]
      simp [h.1, h.2]

/-! ## Claim theorems -/

/-- C1: For every exercise validator and every valid metrics input, the
score returned by validate_form is in [0,100] (never negative, never above
100), and is_correct is false whenever any hard criterion is violated,
regardless of the score's magnitude. -/
theorem claim1_score_bounds_and_hard_criteria :
    (∀ (s : CatCowState) (m : CatCowMetrics) (f : ℕ),
      0 ≤ (catCowValidate s m f).1.score ∧ (catCowValidate s m f).1.score ≤ 100 ∧
        (catCowHardViolation m → (catCowValidate s m f).1.is_correct = false)) ∧
    (∀ (s : WallAngelsState) (m : WallAngelsMetrics) (f : ℕ),
      0 ≤ (wallValidate s m f).1.score ∧ (wallValidate s m f).1.score ≤ 100 ∧
        (wallHardViolation m → (wallValidate s m f).1.is_correct = false)) ∧
    (∀ (s : ChestState) (m : ChestMetrics) (f : ℕ),
      0 ≤ (chestValidate s m f).1.score ∧ (chestValidate s m f).1.score ≤ 100 ∧
        (chestHardViolation s m → (chestValidate s m f).1.is_correct = false)) ∧
    (∀ (s : NeckState) (m : NeckMetrics) (f : ℕ),
      0 ≤ (neckValidate s m f).1.score ∧ (neckValidate s m f).1.score ≤ 100 ∧
        (neckHardViolation m → (neckValidate s m f).1.is_correct = false)) := by
  refine ⟨fun s m f => ?_, fun s m f => ?_, fun s m f => ?_, fun s m f => ?_⟩
  · exact ⟨(catCow_score_bounds s m f).1, (catCow_score_bounds s m f).2,
      catCow_hard_incorrect s m f⟩
  · exact ⟨(wall_score_bounds s m f).1, (wall_score_bounds s m f).2,
      wall_hard_incorrect s m f⟩
  · exact ⟨(chest_score_bounds s m f).1, (chest_score_bounds s m f).2,
      chest_hard_incorrect s m f⟩
  · exact ⟨(neck_score_bounds s m f).1, (neck_score_bounds s m f).2,
      neck_hard_incorrect s m f⟩

/-- Witness for C1: concrete hard-criterion-violating inputs (Cat-Cow
over-flexed to -40°, Wall Angels 30° asymmetric, Chest Opener with the left
elbow invisible, Neck with no full crossing), at which the score bounds
hold and `is_correct` is false. -/
theorem claim1_witness :
    (0 ≤ (catCowValidate catCowInit ⟨-40, 0, 0, 0, 0, true⟩ 1).1.score ∧
      (catCowValidate catCowInit ⟨-40, 0, 0, 0, 0, true⟩ 1).1.score ≤ 100 ∧
      (catCowValidate catCowInit ⟨-40, 0, 0, 0, 0, true⟩ 1).1.is_correct = false) ∧
    (0 ≤ (wallValidate wallInit ⟨100, 70, 30, 0, 0, 0, 85, true⟩ 1).1.score ∧
      (wallValidate wallInit ⟨100, 70, 30, 0, 0, 0, 85, true⟩ 1).1.score ≤ 100 ∧
      (wallValidate wallInit ⟨100, 70, 30, 0, 0, 0, 85, true⟩ 1).1.is_correct = false) ∧
    (0 ≤ (chestValidate chestInit { left_elbow_visible := false } 1).1.score ∧
      (chestValidate chestInit { left_elbow_visible := false } 1).1.score ≤ 100 ∧
      (chestValidate chestInit { left_elbow_visible := false } 1).1.is_correct = false) ∧
    (0 ≤ (neckValidate neckInit { all_visible := true } 1).1.score ∧
      (neckValidate neckInit { all_visible := true } 1).1.score ≤ 100 ∧
      (neckValidate neckInit { all_visible := true } 1).1.is_correct = false) := by
  obtain ⟨h1, h2, h3, h4⟩ := claim1_score_bounds_and_hard_criteria
  refine ⟨?_, ?_, ?_, ?_⟩
  · obtain ⟨a, b, c⟩ := h1 catCowInit ⟨-40, 0, 0, 0, 0, true⟩ 1
    exact ⟨a, b, c (by left; norm_num [MAX_SPINE_FLEX])⟩
  · obtain ⟨a, b, c⟩ := h2 wallInit ⟨100, 70, 30, 0, 0, 0, 85, true⟩ 1
    exact ⟨a, b, c (by left; norm_num [MAX_ARM_ANGLE_DIFF])⟩
  · obtain ⟨a, b, c⟩ := h3 chestInit { left_elbow_visible := false } 1
    exact ⟨a, b, c (by left; rfl)⟩
  · obtain ⟨a, b, c⟩ := h4 neckInit { all_visible := true } 1
    exact ⟨a, b, c (by right; exact ⟨rfl, rfl⟩)⟩

/-- C3: For every exercise validator and every sequence of validate_form
calls with strictly increasing frame indices, the rep counter after each
call is greater than or equal to its value before the call (rep counters
are monotonically non-decreasing and never decremented between resets):
stated for every single call from an arbitrary state (which implies it for
every call of every sequence), and for whole call sequences. -/
theorem claim3_rep_counters_monotone :
    (∀ (s : CatCowState) (m : CatCowMetrics) (f : ℕ),
      s.rep_count ≤ ((catCowValidate s m f).2).rep_count) ∧
    (∀ (s : WallAngelsState) (m : WallAngelsMetrics) (f : ℕ),
      s.rep_count ≤ ((wallValidate s m f).2).rep_count) ∧
    (∀ (s : ChestState) (m : ChestMetrics) (f : ℕ),
      s.rep_count ≤ ((chestValidate s m f).2).rep_count) ∧
    (∀ (s : NeckState) (m : NeckMetrics) (f : ℕ),
      s.rep_count ≤ ((neckValidate s m f).2).rep_count) ∧
    (∀ (s : CatCowState) (ms : List (CatCowMetrics × ℕ)),
      s.rep_count ≤ (catCowRun s ms).rep_count) ∧
    (∀ (s : WallAngelsState) (ms : List (WallAngelsMetrics × ℕ)),
      s.rep_count ≤ (wallRun s ms).rep_count) ∧
    (∀ (s : ChestState) (ms : List (ChestMetrics × ℕ)),
      s.rep_count ≤ (chestRun s ms).rep_count) ∧
    (∀ (s : NeckState) (ms : List (NeckMetrics × ℕ)),
      s.rep_count ≤ (neckRun s ms).rep_count) :=
  ⟨catCow_step_rep_mono, wall_step_rep_mono, chest_step_rep_mono,
    neck_step_rep_mono, catCow_run_rep_mono, wall_run_rep_mono,
    chest_run_rep_mono, neck_run_rep_mono⟩

/-- C4: For every exercise validator, calling reset() restores rep_count,
all violation counters, and current phase to their initial values (the
whole mutable state equals the freshly-constructed state), and for every
metric sequence, running validate_form on the reset instance produces the
same results (and final state) as running it on a freshly constructed
instance. -/
theorem claim4_reset_equals_fresh :
    (∀ s : CatCowState, catCowReset s = catCowInit) ∧
    (∀ (s : CatCowState) (ms : List (CatCowMetrics × ℕ)),
      catCowOutputs (catCowReset s) ms = catCowOutputs catCowInit ms ∧
        catCowRun (catCowReset s) ms = catCowRun catCowInit ms) ∧
    (∀ s : WallAngelsState, wallReset s = wallInit) ∧
    (∀ (s : WallAngelsState) (ms : List (WallAngelsMetrics × ℕ)),
      wallOutputs (wallReset s) ms = wallOutputs wallInit ms ∧
        wallRun (wallReset s) ms = wallRun wallInit ms) ∧
    (∀ s : ChestState, chestReset s = chestInit) ∧
    (∀ (s : ChestState) (ms : List (ChestMetrics × ℕ)),
      chestOutputs (chestReset s) ms = chestOutputs chestInit ms ∧
        chestRun (chestReset s) ms = chestRun chestInit ms) ∧
    (∀ s : NeckState, neckReset s = neckInit) ∧
    (∀ (s : NeckState) (ms : List (NeckMetrics × ℕ)),
      neckOutputs (neckReset s) ms = neckOutputs neckInit ms ∧
        neckRun (neckReset s) ms = neckRun neckInit ms) :=
  ⟨fun _ => rfl, fun _ _ => ⟨rfl, rfl⟩, fun _ => rfl, fun _ _ => ⟨rfl, rfl⟩,
    fun _ => rfl, fun _ _ => ⟨rfl, rfl⟩, fun _ => rfl, fun _ _ => ⟨rfl, rfl⟩⟩

lemma CCState_neutral_ne_cat : CCState.neutral ≠ CCState.cat := by simp

lemma CCState_neutral_ne_cow : CCState.neutral ≠ CCState.cow := by simp

lemma CCState_cat_ne_cow : CCState.cat ≠ CCState.cow := by simp

lemma CCState_cat_ne_neutral : CCState.cat ≠ CCState.neutral := by simp

lemma CCState_cow_ne_cat : CCState.cow ≠ CCState.cat := by simp

lemma CCState_cow_ne_neutral : CCState.cow ≠ CCState.neutral := by simp

/-- C2 counterexample: the claim asserts the visibility gate for every
exercise validator, but `CatCowPose.validate_form` performs no visibility
check at all: fed a metrics mapping whose visibility flag is false (with
neutral measurements), from a fresh state, it returns score 100 and
`is_correct = true` instead of the required score 0 / `is_correct = false`,
and advances its history state. -/
theorem claim2_counterexample :
    (({ spine_curvature := 0, shoulder_alignment := 0, hip_alignment := 0,
        symmetry_diff := 0, head_alignment := 0,
        all_visible := false } : CatCowMetrics).all_visible = false) ∧
    (catCowValidate catCowInit
        ⟨0, 0, 0, 0, 0, false⟩ 1).1.score = 100 ∧
    (catCowValidate catCowInit
        ⟨0, 0, 0, 0, 0, false⟩ 1).1.is_correct = true := by
  refine ⟨rfl, ?_, ?_⟩ <;>
    norm_num [catCowValidate, catCowPostState, catCowClassify,
      catCowCountedTransition, catCowRepTransition, catCowSpineViolation,
      catCowSpinePenalty, catCowTempoPenalty, catCowTransitionTime,
      MIN_SPINE_FLEX, MIN_SPINE_EXT, MAX_SPINE_FLEX, MAX_SPINE_EXT,
      SHOULDER_WRIST_TOLERANCE, HIP_KNEE_TOLERANCE, catCowInit,
      CCState_neutral_ne_cat, CCState_neutral_ne_cow]

/-- C2 amended: only the Neck Side-to-Side and Chest Opener validators
implement the visibility gate.  Neck Side-to-Side returns score 0,
`is_correct = false`, feedback naming the missing landmarks, and leaves the
whole state unchanged.  Chest Opener (whose visibility signal is the pair
of elbow-visibility flags) returns score 0, `is_correct = false`, feedback
naming the missing elbows, and leaves rep, hold, and violation state
unchanged, though it does set its `in_start_position` flag to false.
Cat-Cow and Wall Angels have no visibility gate: their results are
identical whatever the visibility flag says. -/
theorem claim2_amended_visibility_gate :
    (∀ (s : NeckState) (m : NeckMetrics) (f : ℕ), m.all_visible = false →
      (neckValidate s m f).1.score = 0 ∧
        (neckValidate s m f).1.is_correct = false ∧
        ("   Missing: " ++
            String.intercalate ", " (m.missing_points.map neckPointName)) ∈
          (neckValidate s m f).1.feedback_messages ∧
        (neckValidate s m f).2 = s) ∧
    (∀ (s : ChestState) (m : ChestMetrics) (f : ℕ),
      m.left_elbow_visible = false ∨ m.right_elbow_visible = false →
      (chestValidate s m f).1.score = 0 ∧
        (chestValidate s m f).1.is_correct = false ∧
        ("❌ POSITION WRONG: Cannot see " ++
            String.intercalate ", "
              ((if m.left_elbow_visible = false then ["LEFT elbow"] else []) ++
                (if m.right_elbow_visible = false then ["RIGHT elbow"] else [])) ++
            " on camera") ∈
          (chestValidate s m f).1.feedback_messages ∧
        (chestValidate s m f).2 = { s with in_start_position := false }) ∧
    (∀ (s : CatCowState) (m : CatCowMetrics) (f : ℕ) (b : Bool),
      catCowValidate s { m with all_visible := b } f = catCowValidate s m f) ∧
    (∀ (s : WallAngelsState) (m : WallAngelsMetrics) (f : ℕ) (b : Bool),
      wallValidate s { m with all_visible := b } f = wallValidate s m f) := by
  refine ⟨fun s m f h => ?_, fun s m f h => ?_,
    fun s m f b => rfl, fun s m f b => rfl⟩
  · unfold neckValidate
    rw [if_pos h]
    exact ⟨rfl, rfl, by simp, rfl⟩
  · unfold chestValidate
    rw [if_pos h]
    exact ⟨rfl, rfl, by simp, rfl⟩

/-- Witness for the amended C2 at concrete inputs: both gates firing
(Neck with both wrists reported missing, Chest with the right elbow
invisible) from mid-session states. -/
theorem claim2_amended_witness :
    ((neckValidate ⟨3, 1, 2, true, false⟩
        { all_visible := false,
          missing_points := ["LEFT_WRIST", "RIGHT_WRIST"] } 40).1.score = 0 ∧
      (neckValidate ⟨3, 1, 2, true, false⟩
        { all_visible := false,
          missing_points := ["LEFT_WRIST", "RIGHT_WRIST"] } 40).1.is_correct = false ∧
      "   Missing: Left wrist, Right wrist" ∈
        (neckValidate ⟨3, 1, 2, true, false⟩
          { all_visible := false,
            missing_points := ["LEFT_WRIST", "RIGHT_WRIST"] } 40).1.feedback_messages ∧
      (neckValidate ⟨3, 1, 2, true, false⟩
        { all_visible := false,
          missing_points := ["LEFT_WRIST", "RIGHT_WRIST"] } 40).2 =
        ⟨3, 1, 2, true, false⟩) ∧
    ((chestValidate ⟨2, true, true, true, false, 17, 90⟩
        { right_elbow_visible := false } 100).1.score = 0 ∧
      (chestValidate ⟨2, true, true, true, false, 17, 90⟩
        { right_elbow_visible := false } 100).1.is_correct = false ∧
      "❌ POSITION WRONG: Cannot see RIGHT elbow on camera" ∈
        (chestValidate ⟨2, true, true, true, false, 17, 90⟩
          { right_elbow_visible := false } 100).1.feedback_messages ∧
      (chestValidate ⟨2, true, true, true, false, 17, 90⟩
        { right_elbow_visible := false } 100).2 =
        ⟨2, false, true, true, false, 17, 90⟩) := by
  obtain ⟨hn, hc, _, _⟩ := claim2_amended_visibility_gate
  constructor
  · have h := hn ⟨3, 1, 2, true, false⟩
      { all_visible := false, missing_points := ["LEFT_WRIST", "RIGHT_WRIST"] } 40 rfl
    refine ⟨h.1, h.2.1, ?_, h.2.2.2⟩
    have := h.2.2.1
    simpa [neckPointName, String.intercalate] using this
  · have h := hc ⟨2, true, true, true, false, 17, 90⟩
      { right_elbow_visible := false } 100 (Or.inr rfl)
    refine ⟨h.1, h.2.1, ?_, h.2.2.2⟩
    have := h.2.2.1
    simpa [String.intercalate] using this

lemma catCowPost_current (s : CatCowState) (m : CatCowMetrics) (f : ℕ) :
    (catCowPostState s m f).current_state = catCowClassify m.spine_curvature :=
  rfl

lemma catCowPost_rep (s : CatCowState) (m : CatCowMetrics) (f : ℕ) :
    (catCowPostState s m f).rep_count =
      if catCowCountedTransition s m.spine_curvature then s.rep_count + 1/2
      else s.rep_count :=
  rfl

lemma catCowCountedTransition_iff (s : CatCowState) (q : ℚ) :
    catCowCountedTransition s q ↔
      (s.current_state = CCState.cat ∧ catCowClassify q = CCState.cow) ∨
        (s.current_state = CCState.cow ∧ catCowClassify q = CCState.cat) := by
  unfold catCowCountedTransition catCowRepTransition
  constructor
  · exact fun h => h.2
  · intro h
    refine ⟨?_, h⟩
    rcases h with ⟨h1, h2⟩ | ⟨h1, h2⟩
    · rw [h1, h2]; exact CCState_cat_ne_cow
    · rw [h1, h2]; exact CCState_cow_ne_cat

/-- C5: On a fresh Cat-Cow validator, feeding the spine-curvature sequence
[-20, -20, -20, +20, +20, +20, -20, -20] with increasing frame indices
increments rep_count by exactly 1.0 (exactly 0.5 per qualifying cat-to-cow
or cow-to-cat transition, 2 qualifying transitions in this sequence;
transitions into or out of neutral do not increment). -/
theorem claim5_cat_cow_oscillation
    (m1 m2 m3 m4 m5 m6 m7 m8 : CatCowMetrics) (f1 f2 f3 f4 f5 f6 f7 f8 : ℕ)
    (h1 : m1.spine_curvature = -20) (h2 : m2.spine_curvature = -20)
    (h3 : m3.spine_curvature = -20) (h4 : m4.spine_curvature = 20)
    (h5 : m5.spine_curvature = 20) (h6 : m6.spine_curvature = 20)
    (h7 : m7.spine_curvature = -20) (h8 : m8.spine_curvature = -20)
    (hf : f1 < f2 ∧ f2 < f3 ∧ f3 < f4 ∧ f4 < f5 ∧ f5 < f6 ∧ f6 < f7 ∧ f7 < f8) :
    (catCowRun catCowInit
      [(m1, f1), (m2, f2), (m3, f3), (m4, f4), (m5, f5), (m6, f6), (m7, f7),
        (m8, f8)]).rep_count = 1 := by
  have c1 : catCowClassify (-20 : ℚ) = CCState.cat :=
    catCowClassify_cat (by norm_num [MIN_SPINE_FLEX])
  have c2 : catCowClassify (20 : ℚ) = CCState.cow :=
    catCowClassify_cow (by norm_num [MIN_SPINE_FLEX])
      (by norm_num [MIN_SPINE_EXT])
  simp only [catCowRun, catCowValidate_snd]
  set s1 := catCowPostState catCowInit m1 f1 with hs1
  set s2 := catCowPostState s1 m2 f2 with hs2
  set s3 := catCowPostState s2 m3 f3 with hs3
  set s4 := catCowPostState s3 m4 f4 with hs4
  set s5 := catCowPostState s4 m5 f5 with hs5
  set s6 := catCowPostState s5 m6 f6 with hs6
  set s7 := catCowPostState s6 m7 f7 with hs7
  set s8 := catCowPostState s7 m8 f8 with hs8
  have cs1 : s1.current_state = CCState.cat := by
    rw [hs1, catCowPost_current, h1, c1]
  have rp1 : s1.rep_count = 0 := by
    have hn : ¬catCowCountedTransition catCowInit m1.spine_curvature := by
      rw [h1]; simp [catCowCountedTransition_iff, catCowInit, c1]
    rw [hs1, catCowPost_rep, if_neg hn]
    rfl
  have cs2 : s2.current_state = CCState.cat := by
    rw [hs2, catCowPost_current, h2, c1]
  have rp2 : s2.rep_count = 0 := by
    have hn : ¬catCowCountedTransition s1 m2.spine_curvature := by
      rw [h2]; simp [catCowCountedTransition_iff, cs1, c1]
    rw [hs2, catCowPost_rep, if_neg hn, rp1]
  have cs3 : s3.current_state = CCState.cat := by
    rw [hs3, catCowPost_current, h3, c1]
  have rp3 : s3.rep_count = 0 := by
    have hn : ¬catCowCountedTransition s2 m3.spine_curvature := by
      rw [h3]; simp [catCowCountedTransition_iff, cs2, c1]
    rw [hs3, catCowPost_rep, if_neg hn, rp2]
  have cs4 : s4.current_state = CCState.cow := by
    rw [hs4, catCowPost_current, h4, c2]
  have rp4 : s4.rep_count = 1/2 := by
    have hy : catCowCountedTransition s3 m4.spine_curvature := by
      rw [h4, catCowCountedTransition_iff]
      exact Or.inl ⟨cs3, c2⟩
    rw [hs4, catCowPost_rep, if_pos hy, rp3]
    norm_num
  have cs5 : s5.current_state = CCState.cow := by
    rw [hs5, catCowPost_current, h5, c2]
  have rp5 : s5.rep_count = 1/2 := by
    have hn : ¬catCowCountedTransition s4 m5.spine_curvature := by
      rw [h5]; simp [catCowCountedTransition_iff, cs4, c2]
    rw [hs5, catCowPost_rep, if_neg hn, rp4]
  have cs6 : s6.current_state = CCState.cow := by
    rw [hs6, catCowPost_current, h6, c2]
  have rp6 : s6.rep_count = 1/2 := by
    have hn : ¬catCowCountedTransition s5 m6.spine_curvature := by
      rw [h6]; simp [catCowCountedTransition_iff, cs5, c2]
    rw [hs6, catCowPost_rep, if_neg hn, rp5]
  have cs7 : s7.current_state = CCState.cat := by
    rw [hs7, catCowPost_current, h7, c1]
  have rp7 : s7.rep_count = 1 := by
    have hy : catCowCountedTransition s6 m7.spine_curvature := by
      rw [h7, catCowCountedTransition_iff]
      exact Or.inr ⟨cs6, c1⟩
    rw [hs7, catCowPost_rep, if_pos hy, rp6]
    norm_num
  have rp8 : s8.rep_count = 1 := by
    have hn : ¬catCowCountedTransition s7 m8.spine_curvature := by
      rw [h8]; simp [catCowCountedTransition_iff, cs7, c1]
    rw [hs8, catCowPost_rep, if_neg hn, rp7]
  exact rp8

/-- Witness for C5: the sequence at frames 1..8 with the non-spine metrics
all zero. -/
theorem claim5_witness :
    (catCowRun catCowInit
      [(⟨-20, 0, 0, 0, 0, true⟩, 1), (⟨-20, 0, 0, 0, 0, true⟩, 2),
        (⟨-20, 0, 0, 0, 0, true⟩, 3), (⟨20, 0, 0, 0, 0, true⟩, 4),
        (⟨20, 0, 0, 0, 0, true⟩, 5), (⟨20, 0, 0, 0, 0, true⟩, 6),
        (⟨-20, 0, 0, 0, 0, true⟩, 7),
        (⟨-20, 0, 0, 0, 0, true⟩, 8)]).rep_count = 1 :=
  claim5_cat_cow_oscillation _ _ _ _ _ _ _ _ _ _ _ _ _ _ _ _
    rfl rfl rfl rfl rfl rfl rfl rfl
    (by norm_num)

lemma WAState_down_ne_up : WAState.arms_down ≠ WAState.arms_up := by simp

lemma WAState_up_ne_down : WAState.arms_up ≠ WAState.arms_down := by simp

lemma wallClassify_down {q : ℚ} (h : wallDownBand q) :
    wallClassify q = WAState.arms_down := by
  unfold wallClassify
  exact if_pos h

lemma wallClassify_up {q : ℚ} (h : wallUpBand q) :
    wallClassify q = WAState.arms_up := by
  unfold wallClassify
  rw [if_neg]
  · exact if_pos h
  rintro ⟨-, hb⟩
  obtain ⟨ha, -⟩ := h
  unfold MIN_ARM_ANGLE_UP at ha
  unfold MAX_ARM_ANGLE_DOWN at hb
  linarith

lemma wall_step_down (s : WallAngelsState) (m : WallAngelsMetrics) (f : ℕ)
    (h : wallClassify m.avg_arm_angle = WAState.arms_down) :
    (wallPostState s m f).rep_count =
        (if s.up_position_reached then s.rep_count + 1 else s.rep_count) ∧
      (wallPostState s m f).down_position_reached = true ∧
      (wallPostState s m f).up_position_reached = false := by
  unfold wallPostState
  refine ⟨?_, ?_, ?_⟩ <;> dsimp only <;> rw [h] <;>
    cases hu : s.up_position_reached <;>
    simp [WAState_down_ne_up]

lemma wall_step_up (s : WallAngelsState) (m : WallAngelsMetrics) (f : ℕ)
    (h : wallClassify m.avg_arm_angle = WAState.arms_up) :
    (wallPostState s m f).rep_count = s.rep_count ∧
      (wallPostState s m f).down_position_reached = false ∧
      (wallPostState s m f).up_position_reached =
        (s.down_position_reached || s.up_position_reached) := by
  unfold wallPostState
  refine ⟨?_, ?_, ?_⟩ <;> dsimp only <;> rw [h] <;>
    cases hd : s.down_position_reached <;>
    simp [WAState_up_ne_down]

lemma wallRun_append (s : WallAngelsState) (xs ys : List (WallAngelsMetrics × ℕ)) :
    wallRun s (xs ++ ys) = wallRun (wallRun s xs) ys := by
  induction xs generalizing s with
  | nil => rfl
  | cons p rest ih => rw [List.cons_append]; exact ih _

lemma wall_run_down_band (ms : List (WallAngelsMetrics × ℕ)) :
    ∀ s : WallAngelsState, (∀ p ∈ ms, wallDownBand p.1.avg_arm_angle) →
      s.up_position_reached = false →
      (wallRun s ms).rep_count = s.rep_count ∧
        (wallRun s ms).up_position_reached = false ∧
        (wallRun s ms).down_position_reached =
          (s.down_position_reached || !ms.isEmpty) := by
  induction ms with
  | nil => intro s _ hup; exact ⟨rfl, hup, by simp [wallRun]⟩
  | cons p rest ih =>
      intro s hms hup
      have hc := wallClassify_down (hms p (by simp))
      obtain ⟨e1, e2, e3⟩ := wall_step_down s p.1 p.2 hc
      rw [hup] at e1
      rw [if_neg (by simp)] at e1
      have hrest : ∀ q ∈ rest, wallDownBand q.1.avg_arm_angle :=
        fun q hq => hms q (by simp [hq])
      simp only [wallRun, wallValidate_snd]
      obtain ⟨r1, r2, r3⟩ := ih (wallPostState s p.1 p.2) hrest e3
      refine ⟨by rw [r1, e1], r2, by rw [r3, e2]; simp⟩

lemma wall_run_up_band_idle (ms : List (WallAngelsMetrics × ℕ)) :
    ∀ s : WallAngelsState, (∀ p ∈ ms, wallUpBand p.1.avg_arm_angle) →
      s.down_position_reached = false →
      (wallRun s ms).rep_count = s.rep_count ∧
        (wallRun s ms).down_position_reached = false ∧
        (wallRun s ms).up_position_reached = s.up_position_reached := by
  induction ms with
  | nil => intro s _ hdown; exact ⟨rfl, hdown, rfl⟩
  | cons p rest ih =>
      intro s hms hdown
      have hc := wallClassify_up (hms p (by simp))
      obtain ⟨e1, e2, e3⟩ := wall_step_up s p.1 p.2 hc
      rw [hdown] at e3
      simp only [Bool.false_or] at e3
      have hrest : ∀ q ∈ rest, wallUpBand q.1.avg_arm_angle :=
        fun q hq => hms q (by simp [hq])
      simp only [wallRun, wallValidate_snd]
      obtain ⟨r1, r2, r3⟩ := ih (wallPostState s p.1 p.2) hrest e2
      exact ⟨by rw [r1, e1], r2, by rw [r3, e3]⟩

/-- C6: On a fresh Wall Angels validator, a sequence of average-arm-angle
metrics that moves from the down band (e.g. 90°) to the up band (e.g. 175°)
and back to the down band increments rep_count by exactly 1, at the moment
the sequence returns to down having passed through up; a sequence that
reaches the up band but never returns to the down band increments
rep_count by 0. -/
theorem claim6_wall_angels_down_up_down
    (ds1 us ds2 : List (WallAngelsMetrics × ℕ))
    (h1 : ds1 ≠ []) (h2 : us ≠ []) (h3 : ds2 ≠ [])
    (hd1 : ∀ p ∈ ds1, wallDownBand p.1.avg_arm_angle)
    (hu : ∀ p ∈ us, wallUpBand p.1.avg_arm_angle)
    (hd2 : ∀ p ∈ ds2, wallDownBand p.1.avg_arm_angle) :
    (wallRun wallInit (ds1 ++ us ++ ds2)).rep_count = 1 ∧
      (wallRun wallInit (ds1 ++ us)).rep_count = 0 := by
  obtain ⟨a1, a2, a3⟩ := wall_run_down_band ds1 wallInit hd1 rfl
  rw [List.isEmpty_eq_false_iff_exists_mem.mpr
    (by rcases List.exists_mem_of_ne_nil ds1 h1 with ⟨x, hx⟩; exact ⟨x, hx⟩)] at a3
  simp only [Bool.not_false, Bool.or_true] at a3
  obtain ⟨u, us', rfl⟩ := List.exists_cons_of_ne_nil h2
  have hcu := wallClassify_up (hu u (by simp))
  obtain ⟨b1, b2, b3⟩ := wall_step_up (wallRun wallInit ds1) u.1 u.2 hcu
  rw [a3, a2] at b3
  simp only [Bool.true_or] at b3
  have hus' : ∀ p ∈ us', wallUpBand p.1.avg_arm_angle :=
    fun p hp => hu p (by simp [hp])
  obtain ⟨c1, c2, c3⟩ :=
    wall_run_up_band_idle us' (wallPostState (wallRun wallInit ds1) u.1 u.2)
      hus' b2
  -- the state after ds1 ++ us
  have hAB : wallRun wallInit (ds1 ++ u :: us') =
      wallRun (wallPostState (wallRun wallInit ds1) u.1 u.2) us' := by
    rw [wallRun_append]
    simp only [wallRun, wallValidate_snd]
  have hrep0 : (wallRun wallInit (ds1 ++ u :: us')).rep_count = 0 := by
    rw [hAB, c1, b1, a1]; rfl
  have hup1 : (wallRun wallInit (ds1 ++ u :: us')).up_position_reached = true := by
    rw [hAB, c3, b3]
  refine ⟨?_, hrep0⟩
  obtain ⟨d, ds2', rfl⟩ := List.exists_cons_of_ne_nil h3
  have hcd := wallClassify_down (hd2 d (by simp))
  obtain ⟨e1, e2, e3⟩ :=
    wall_step_down (wallRun wallInit (ds1 ++ u :: us')) d.1 d.2 hcd
  rw [hup1, if_pos rfl, hrep0] at e1
  have hds2' : ∀ p ∈ ds2', wallDownBand p.1.avg_arm_angle :=
    fun p hp => hd2 p (by simp [hp])
  obtain ⟨r1, r2, r3⟩ :=
    wall_run_down_band ds2'
      (wallPostState (wallRun wallInit (ds1 ++ u :: us')) d.1 d.2) hds2' e3
  have : wallRun wallInit (ds1 ++ u :: us' ++ d :: ds2') =
      wallRun (wallPostState (wallRun wallInit (ds1 ++ u :: us')) d.1 d.2)
        ds2' := by
    rw [wallRun_append]
    simp only [wallRun, wallValidate_snd]
  rw [this, r1, e1]

/-- Witness for C6: single frames at 90° (down), 175° (up), 90° (down),
with symmetric, elbow-back, upright-torso metrics. -/
theorem claim6_witness :
    (wallRun wallInit
      [(⟨90, 90, 0, 0, 0, 0, 90, true⟩, 1), (⟨175, 175, 0, 0, 0, 0, 175, true⟩, 2),
        (⟨90, 90, 0, 0, 0, 0, 90, true⟩, 3)]).rep_count = 1 ∧
      (wallRun wallInit
        [(⟨90, 90, 0, 0, 0, 0, 90, true⟩, 1),
          (⟨175, 175, 0, 0, 0, 0, 175, true⟩, 2)]).rep_count = 0 := by
  have h := claim6_wall_angels_down_up_down
    [(⟨90, 90, 0, 0, 0, 0, 90, true⟩, 1)]
    [(⟨175, 175, 0, 0, 0, 0, 175, true⟩, 2)]
    [(⟨90, 90, 0, 0, 0, 0, 90, true⟩, 3)]
    (by simp) (by simp) (by simp)
    (by intro p hp; simp at hp; subst hp; constructor <;>
      norm_num [MIN_ARM_ANGLE_DOWN, MAX_ARM_ANGLE_DOWN])
    (by intro p hp; simp at hp; subst hp; constructor <;>
      norm_num [MIN_ARM_ANGLE_UP, MAX_ARM_ANGLE_UP])
    (by intro p hp; simp at hp; subst hp; constructor <;>
      norm_num [MIN_ARM_ANGLE_DOWN, MAX_ARM_ANGLE_DOWN])
  simpa using h

lemma chestRun_append (s : ChestState) (xs ys : List (ChestMetrics × ℕ)) :
    chestRun s (xs ++ ys) = chestRun (chestRun s xs) ys := by
  induction xs generalizing s with
  | nil => rfl
  | cons p rest ih => rw [List.cons_append]; exact ih _

lemma chest_start_step :
    chestPostState chestInit chestStartMetrics 0 = chestHoldState 0 := by decide

lemma chest_bottom_step (k : ℕ) (hk : k < 60) :
    chestPostState (chestHoldState k) chestBottomMetrics 0 =
      chestHoldState (k + 1) := by
  have hc : (chestHoldState k).hold_complete = false := by
    unfold chestHoldState
    dsimp only
    rw [if_neg (by omega)]
  have hwa : chestWasAbove1 (chestHoldState k) chestBottomMetrics = true := by
    unfold chestWasAbove1
    simp [chestBottomMetrics, chestHoldState]
  have hh : chestHolding (chestHoldState k) chestBottomMetrics := ⟨rfl, hwa⟩
  have h1 : chestHoldCounter1 (chestHoldState k) chestBottomMetrics = k + 1 := by
    unfold chestHoldCounter1
    rw [if_pos ⟨hh, hc⟩]
    rfl
  have h2 : chestHoldComplete1 (chestHoldState k) chestBottomMetrics =
      (if 60 ≤ k + 1 then true else false) := by
    unfold chestHoldComplete1
    by_cases h60 : 60 ≤ k + 1
    · rw [if_pos ⟨hh, hc, by rw [h1]; exact h60⟩, if_pos h60]
    · rw [if_neg, if_neg h60]
      · exact hc
      rintro ⟨-, -, hx⟩
      rw [h1] at hx
      exact h60 hx
  have h3 : chestHoldCounter2 (chestHoldState k) chestBottomMetrics = k + 1 := by
    unfold chestHoldCounter2
    rw [if_neg (by rintro ⟨hx, -⟩; exact hx hh), h1]
  have h4 : ¬chestRepCounted (chestHoldState k) chestBottomMetrics 0 := by
    rintro ⟨hx, -⟩
    simp [chestBottomMetrics] at hx
  unfold chestPostState
  rw [if_neg (by simp [chestBottomMetrics]),
    if_neg (by simp [chestHoldState])]
  unfold chestPostStateMain
  simp only [if_neg h4, h2, h3, hwa]
  unfold chestHoldState
  simp [chestBottomMetrics]

lemma chest_hold_run (n : ℕ) (hn : n ≤ 60) :
    chestRun (chestHoldState 0)
      (List.replicate n (chestBottomMetrics, 0)) = chestHoldState n := by
  induction n with
  | zero => rfl
  | succ k ih =>
      rw [List.replicate_succ', chestRun_append, ih (by omega)]
      show chestRun _ [(chestBottomMetrics, 0)] = _
      simp only [chestRun, chestValidate_snd]
      exact chest_bottom_step k (by omega)

lemma chest_break_step (k : ℕ) (hk : k < 60) :
    (chestPostState (chestHoldState k) chestBreakMetrics 0).hold_counter = 0 ∧
      (chestPostState (chestHoldState k) chestBreakMetrics 0).rep_count = 0 := by
  have hc : (chestHoldState k).hold_complete = false := by
    unfold chestHoldState
    dsimp only
    rw [if_neg (by omega)]
  have hnh : ¬chestHolding (chestHoldState k) chestBreakMetrics := by
    rintro ⟨hb, -⟩
    simp [chestBreakMetrics] at hb
  have h1 : chestHoldCounter1 (chestHoldState k) chestBreakMetrics = k := by
    unfold chestHoldCounter1
    rw [if_neg (by rintro ⟨hx, -⟩; exact hnh hx)]
    rfl
  have h3 : chestHoldCounter2 (chestHoldState k) chestBreakMetrics = 0 := by
    unfold chestHoldCounter2
    by_cases hz : 0 < (chestHoldState k).hold_counter
    · rw [if_pos ⟨hnh, hz, hc⟩]
    · rw [if_neg (by rintro ⟨-, hx, -⟩; exact hz hx), h1]
      have : (chestHoldState k).hold_counter = k := rfl
      omega
  have h4 : ¬chestRepCounted (chestHoldState k) chestBreakMetrics 0 := by
    rintro ⟨hx, -⟩
    simp [chestBreakMetrics] at hx
  unfold chestPostState
  rw [if_neg (by simp [chestBreakMetrics]),
    if_neg (by simp [chestHoldState])]
  unfold chestPostStateMain
  simp only [if_neg h4, h3]
  exact ⟨trivial, rfl⟩

/-- C7: For the Chest Opener validator with a validated start position: a
metric sequence that satisfies the bottom-hold criterion for fewer than
HOLD_FRAMES consecutive frames and then breaks it leaves hold_counter
reset to 0 and rep_count unchanged; a sequence that sustains the criterion
for exactly HOLD_FRAMES frames and then returns to the start position
increments rep_count by exactly 1, exactly once (hold progress is not
reset after the hold is marked complete): the post-hold sequence here
contains a grace frame off the bottom before the return to start, and a
second start frame after the counted rep. -/
theorem claim7_chest_opener_hold (k : ℕ) (hk : k < 60) :
    ((chestRun chestInit ((chestStartMetrics, 0) ::
        (List.replicate k (chestBottomMetrics, 0) ++
          [(chestBreakMetrics, 0)]))).hold_counter = 0 ∧
      (chestRun chestInit ((chestStartMetrics, 0) ::
        (List.replicate k (chestBottomMetrics, 0) ++
          [(chestBreakMetrics, 0)]))).rep_count =
        (chestRun chestInit [(chestStartMetrics, 0)]).rep_count) ∧
    ((chestRun chestInit ((chestStartMetrics, 0) ::
        (List.replicate 60 (chestBottomMetrics, 0) ++
          [(chestBreakMetrics, 0)]))).hold_counter = 60 ∧
      (chestRun chestInit ((chestStartMetrics, 0) ::
        (List.replicate 60 (chestBottomMetrics, 0) ++
          [(chestBreakMetrics, 0)]))).hold_complete = true ∧
      (chestRun chestInit ((chestStartMetrics, 0) ::
        (List.replicate 60 (chestBottomMetrics, 0) ++
          [(chestBreakMetrics, 0), (chestStartMetrics, 0),
            (chestStartMetrics, 0)]))).rep_count = 1) := by
  have hstep1 : ∀ xs, chestRun chestInit ((chestStartMetrics, 0) :: xs) =
      chestRun (chestHoldState 0) xs := by
    intro xs
    simp only [chestRun, chestValidate_snd]
    rw [chest_start_step]
  constructor
  · rw [hstep1, chestRun_append, chest_hold_run k (by omega)]
    have := chest_break_step k hk
    simp only [chestRun, chestValidate_snd]
    exact ⟨this.1, by rw [this.2]; rfl⟩
  · refine ⟨?_, ?_, ?_⟩ <;>
      rw [hstep1, chestRun_append, chest_hold_run 60 (by omega)] <;> decide

/-- Witness for C7 at k = 5 (a 5-frame hold attempt, a sixth of the
required 60 frames, then a break). -/
theorem claim7_witness :
    ((chestRun chestInit ((chestStartMetrics, 0) ::
        (List.replicate 5 (chestBottomMetrics, 0) ++
          [(chestBreakMetrics, 0)]))).hold_counter = 0 ∧
      (chestRun chestInit ((chestStartMetrics, 0) ::
        (List.replicate 5 (chestBottomMetrics, 0) ++
          [(chestBreakMetrics, 0)]))).rep_count =
        (chestRun chestInit [(chestStartMetrics, 0)]).rep_count) ∧
    ((chestRun chestInit ((chestStartMetrics, 0) ::
        (List.replicate 60 (chestBottomMetrics, 0) ++
          [(chestBreakMetrics, 0)]))).hold_counter = 60 ∧
      (chestRun chestInit ((chestStartMetrics, 0) ::
        (List.replicate 60 (chestBottomMetrics, 0) ++
          [(chestBreakMetrics, 0)]))).hold_complete = true ∧
      (chestRun chestInit ((chestStartMetrics, 0) ::
        (List.replicate 60 (chestBottomMetrics, 0) ++
          [(chestBreakMetrics, 0), (chestStartMetrics, 0),
            (chestStartMetrics, 0)]))).rep_count = 1) :=
  claim7_chest_opener_hold 5 (by omega)

lemma neckMetricsOf_visible (p : NeckPoints) :
    (neckMetricsOf p).all_visible = true := by
  unfold neckMetricsOf neckCalculateMetrics
  rw [if_neg (by simp)]

lemma neckMetricsOf_right (p : NeckPoints) (h : neckAllRight p) :
    (neckMetricsOf p).all_crossed_right = true ∧
      (neckMetricsOf p).all_crossed_left = false := by
  obtain ⟨h1, h2, h3, h4, h5, h6⟩ := h
  have n1 : ¬p.left_shoulder_x < MIDPOINT_X := not_lt.mpr (le_of_lt h1)
  unfold neckMetricsOf neckCalculateMetrics
  rw [if_neg (by simp)]
  constructor
  · simp only [Bool.and_eq_true, decide_eq_true_eq]
    exact ⟨⟨⟨⟨⟨h1, h2⟩, h3⟩, h4⟩, h5⟩, h6⟩
  · simp [n1]

lemma neckMetricsOf_left (p : NeckPoints) (h : neckAllLeft p) :
    (neckMetricsOf p).all_crossed_left = true ∧
      (neckMetricsOf p).all_crossed_right = false := by
  obtain ⟨h1, h2, h3, h4, h5, h6⟩ := h
  have n1 : ¬MIDPOINT_X < p.left_shoulder_x := not_lt.mpr (le_of_lt h1)
  unfold neckMetricsOf neckCalculateMetrics
  rw [if_neg (by simp)]
  constructor
  · simp only [Bool.and_eq_true, decide_eq_true_eq]
    exact ⟨⟨⟨⟨⟨h1, h2⟩, h3⟩, h4⟩, h5⟩, h6⟩
  · simp [n1]

lemma neckMetricsOf_notRight (p : NeckPoints) (h : ¬neckAllRight p) :
    (neckMetricsOf p).all_crossed_right = false := by
  unfold neckMetricsOf neckCalculateMetrics
  rw [if_neg (by simp)]
  by_contra hx
  rw [Bool.not_eq_false] at hx
  simp only [Bool.and_eq_true, decide_eq_true_eq] at hx
  obtain ⟨⟨⟨⟨⟨h1, h2⟩, h3⟩, h4⟩, h5⟩, h6⟩ := hx
  exact h ⟨h1, h2, h3, h4, h5, h6⟩

lemma neckMetricsOf_notLeft (p : NeckPoints) (h : ¬neckAllLeft p) :
    (neckMetricsOf p).all_crossed_left = false := by
  unfold neckMetricsOf neckCalculateMetrics
  rw [if_neg (by simp)]
  by_contra hx
  rw [Bool.not_eq_false] at hx
  simp only [Bool.and_eq_true, decide_eq_true_eq] at hx
  obtain ⟨⟨⟨⟨⟨h1, h2⟩, h3⟩, h4⟩, h5⟩, h6⟩ := hx
  exact h ⟨h1, h2, h3, h4, h5, h6⟩

lemma neckRun_append (s : NeckState) (xs ys : List (NeckMetrics × ℕ)) :
    neckRun s (xs ++ ys) = neckRun (neckRun s xs) ys := by
  induction xs generalizing s with
  | nil => rfl
  | cons p rest ih => rw [List.cons_append]; exact ih _

lemma neck_step_crossed_right (s : NeckState) (m : NeckMetrics) (f : ℕ)
    (hv : m.all_visible = true) (hr : m.all_crossed_right = true)
    (hl : m.all_crossed_left = false) (hlf : s.left_was_crossed = false) :
    (neckPostState s m f) =
      ⟨s.rep_count, s.left_reps, s.right_reps, false, true⟩ := by
  have h1 : ¬neckRightFallingEdge s m := by
    rintro ⟨hx, -⟩
    rw [hr] at hx
    cases hx
  have h2 : ¬neckLeftFallingEdge s m := by
    rintro ⟨-, hx⟩
    rw [hlf] at hx
    cases hx
  unfold neckPostState
  rw [if_neg (by simp [hv])]
  cases hrf : s.right_was_crossed <;>
    simp [h1, h2, hr, hl, hlf, hrf]

lemma neck_step_crossed_left (s : NeckState) (m : NeckMetrics) (f : ℕ)
    (hv : m.all_visible = true) (hl : m.all_crossed_left = true)
    (hr : m.all_crossed_right = false) (hrf : s.right_was_crossed = false) :
    (neckPostState s m f) =
      ⟨s.rep_count, s.left_reps, s.right_reps, true, false⟩ := by
  have h1 : ¬neckRightFallingEdge s m := by
    rintro ⟨-, hx⟩
    rw [hrf] at hx
    cases hx
  have h2 : ¬neckLeftFallingEdge s m := by
    rintro ⟨hx, -⟩
    rw [hl] at hx
    cases hx
  unfold neckPostState
  rw [if_neg (by simp [hv])]
  cases hlf : s.left_was_crossed <;>
    simp [h1, h2, hr, hl, hrf, hlf]

lemma neck_run_all_right (ps : List (NeckPoints × ℕ)) :
    ∀ s : NeckState, (∀ p ∈ ps, neckAllRight p.1) →
      s.left_was_crossed = false →
      (neckRun s (ps.map fun p => (neckMetricsOf p.1, p.2))).rep_count =
          s.rep_count ∧
        (neckRun s (ps.map fun p => (neckMetricsOf p.1, p.2))).left_reps =
          s.left_reps ∧
        (neckRun s (ps.map fun p => (neckMetricsOf p.1, p.2))).right_reps =
          s.right_reps ∧
        (neckRun s (ps.map fun p => (neckMetricsOf p.1, p.2))).left_was_crossed =
          false ∧
        (neckRun s (ps.map fun p => (neckMetricsOf p.1, p.2))).right_was_crossed =
          (s.right_was_crossed || !ps.isEmpty) := by
  induction ps with
  | nil => intro s _ hlf; exact ⟨rfl, rfl, rfl, hlf, by simp [neckRun]⟩
  | cons p rest ih =>
      intro s hps hlf
      have hm := neckMetricsOf_right p.1 (hps p (by simp))
      simp only [List.map_cons, neckRun, neckValidate_snd]
      rw [neck_step_crossed_right s (neckMetricsOf p.1) p.2
        (neckMetricsOf_visible p.1) hm.1 hm.2 hlf]
      obtain ⟨r1, r2, r3, r4, r5⟩ :=
        ih ⟨s.rep_count, s.left_reps, s.right_reps, false, true⟩
          (fun q hq => hps q (by simp [hq])) rfl
      exact ⟨r1, r2, r3, r4, by rw [r5]; simp⟩

lemma neck_run_all_left (ps : List (NeckPoints × ℕ)) :
    ∀ s : NeckState, (∀ p ∈ ps, neckAllLeft p.1) →
      s.right_was_crossed = false →
      (neckRun s (ps.map fun p => (neckMetricsOf p.1, p.2))).rep_count =
          s.rep_count ∧
        (neckRun s (ps.map fun p => (neckMetricsOf p.1, p.2))).left_reps =
          s.left_reps ∧
        (neckRun s (ps.map fun p => (neckMetricsOf p.1, p.2))).right_reps =
          s.right_reps ∧
        (neckRun s (ps.map fun p => (neckMetricsOf p.1, p.2))).right_was_crossed =
          false ∧
        (neckRun s (ps.map fun p => (neckMetricsOf p.1, p.2))).left_was_crossed =
          (s.left_was_crossed || !ps.isEmpty) := by
  induction ps with
  | nil => intro s _ hrf; exact ⟨rfl, rfl, rfl, hrf, by simp [neckRun]⟩
  | cons p rest ih =>
      intro s hps hrf
      have hm := neckMetricsOf_left p.1 (hps p (by simp))
      simp only [List.map_cons, neckRun, neckValidate_snd]
      rw [neck_step_crossed_left s (neckMetricsOf p.1) p.2
        (neckMetricsOf_visible p.1) hm.1 hm.2 hrf]
      obtain ⟨r1, r2, r3, r4, r5⟩ :=
        ih ⟨s.rep_count, s.left_reps, s.right_reps, true, false⟩
          (fun q hq => hps q (by simp [hq])) rfl
      exact ⟨r1, r2, r3, r4, by rw [r5]; simp⟩

lemma neck_step_right_falling (s : NeckState) (m : NeckMetrics) (f : ℕ)
    (hv : m.all_visible = true) (hr : m.all_crossed_right = false)
    (hrf : s.right_was_crossed = true) (hlf : s.left_was_crossed = false) :
    (neckPostState s m f).rep_count = s.rep_count + 1 ∧
      (neckPostState s m f).left_reps = s.left_reps ∧
      (neckPostState s m f).right_reps = s.right_reps + 1 := by
  have h1 : neckRightFallingEdge s m := ⟨hr, hrf⟩
  have h2 : ¬neckLeftFallingEdge s m := by
    rintro ⟨-, hx⟩
    rw [hlf] at hx
    cases hx
  unfold neckPostState
  rw [if_neg (by simp [hv])]
  simp [h1, h2]

lemma neck_step_left_falling (s : NeckState) (m : NeckMetrics) (f : ℕ)
    (hv : m.all_visible = true) (hl : m.all_crossed_left = false)
    (hlf : s.left_was_crossed = true) (hrf : s.right_was_crossed = false) :
    (neckPostState s m f).rep_count = s.rep_count + 1 ∧
      (neckPostState s m f).right_reps = s.right_reps ∧
      (neckPostState s m f).left_reps = s.left_reps + 1 := by
  have h1 : neckLeftFallingEdge s m := ⟨hl, hlf⟩
  have h2 : ¬neckRightFallingEdge s m := by
    rintro ⟨-, hx⟩
    rw [hrf] at hx
    cases hx
  unfold neckPostState
  rw [if_neg (by simp [hv])]
  simp [h1, h2]

/-- C8: For the Neck Side-to-Side validator: if all six tracked points
(both shoulders, elbows, wrists) have x > 0.5 for N consecutive frames and
then the all-crossed-right condition becomes false, right_reps increments
by exactly 1 on that falling-edge frame and left_reps is unaffected by the
sequence; the same holds symmetrically for leftward crossing, and each
directional increment also increments the shared rep_count total. -/
theorem claim8_neck_directional_reps :
    (∀ (ps : List (NeckPoints × ℕ)) (pe : NeckPoints × ℕ),
      ps ≠ [] → (∀ p ∈ ps, neckAllRight p.1) → ¬neckAllRight pe.1 →
      (neckRun neckInit
          ((ps ++ [pe]).map fun p => (neckMetricsOf p.1, p.2))).right_reps = 1 ∧
        (neckRun neckInit
          ((ps ++ [pe]).map fun p => (neckMetricsOf p.1, p.2))).left_reps = 0 ∧
        (neckRun neckInit
          ((ps ++ [pe]).map fun p => (neckMetricsOf p.1, p.2))).rep_count = 1) ∧
    (∀ (ps : List (NeckPoints × ℕ)) (pe : NeckPoints × ℕ),
      ps ≠ [] → (∀ p ∈ ps, neckAllLeft p.1) → ¬neckAllLeft pe.1 →
      (neckRun neckInit
          ((ps ++ [pe]).map fun p => (neckMetricsOf p.1, p.2))).left_reps = 1 ∧
        (neckRun neckInit
          ((ps ++ [pe]).map fun p => (neckMetricsOf p.1, p.2))).right_reps = 0 ∧
        (neckRun neckInit
          ((ps ++ [pe]).map fun p => (neckMetricsOf p.1, p.2))).rep_count = 1) := by
  constructor
  · intro ps pe hne hall hnr
    rw [List.map_append, neckRun_append]
    obtain ⟨r1, r2, r3, r4, r5⟩ := neck_run_all_right ps neckInit hall rfl
    have hps : ps.isEmpty = false :=
      List.isEmpty_eq_false_iff_exists_mem.mpr (List.exists_mem_of_ne_nil ps hne)
    rw [hps] at r5
    simp only [Bool.not_false, Bool.or_true] at r5
    obtain ⟨e1, e2, e3⟩ := neck_step_right_falling _ (neckMetricsOf pe.1) pe.2
      (neckMetricsOf_visible pe.1) (neckMetricsOf_notRight pe.1 hnr) r5 r4
    simp only [List.map_cons, List.map_nil, neckRun, neckValidate_snd]
    exact ⟨by rw [e3, r3]; rfl, by rw [e2, r2]; rfl, by rw [e1, r1]; rfl⟩
  · intro ps pe hne hall hnl
    rw [List.map_append, neckRun_append]
    obtain ⟨r1, r2, r3, r4, r5⟩ := neck_run_all_left ps neckInit hall rfl
    have hps : ps.isEmpty = false :=
      List.isEmpty_eq_false_iff_exists_mem.mpr (List.exists_mem_of_ne_nil ps hne)
    rw [hps] at r5
    simp only [Bool.not_false, Bool.or_true] at r5
    obtain ⟨e1, e2, e3⟩ := neck_step_left_falling _ (neckMetricsOf pe.1) pe.2
      (neckMetricsOf_visible pe.1) (neckMetricsOf_notLeft pe.1 hnl) r5 r4
    simp only [List.map_cons, List.map_nil, neckRun, neckValidate_snd]
    exact ⟨by rw [e3, r2]; rfl, by rw [e2, r3]; rfl, by rw [e1, r1]; rfl⟩

/-- Witness for C8: two frames fully crossed right (all x = 0.8) then a
return frame (all x = 0.4), and symmetrically two frames fully crossed
left (all x = 0.2) then a return frame (all x = 0.6). -/
theorem claim8_witness :
    ((neckRun neckInit
        [(neckMetricsOf ⟨4/5, 4/5, 4/5, 4/5, 4/5, 4/5⟩, 1),
          (neckMetricsOf ⟨4/5, 4/5, 4/5, 4/5, 4/5, 4/5⟩, 2),
          (neckMetricsOf ⟨2/5, 2/5, 2/5, 2/5, 2/5, 2/5⟩, 3)]).right_reps = 1 ∧
      (neckRun neckInit
        [(neckMetricsOf ⟨4/5, 4/5, 4/5, 4/5, 4/5, 4/5⟩, 1),
          (neckMetricsOf ⟨4/5, 4/5, 4/5, 4/5, 4/5, 4/5⟩, 2),
          (neckMetricsOf ⟨2/5, 2/5, 2/5, 2/5, 2/5, 2/5⟩, 3)]).left_reps = 0 ∧
      (neckRun neckInit
        [(neckMetricsOf ⟨4/5, 4/5, 4/5, 4/5, 4/5, 4/5⟩, 1),
          (neckMetricsOf ⟨4/5, 4/5, 4/5, 4/5, 4/5, 4/5⟩, 2),
          (neckMetricsOf ⟨2/5, 2/5, 2/5, 2/5, 2/5, 2/5⟩, 3)]).rep_count = 1) ∧
    ((neckRun neckInit
        [(neckMetricsOf ⟨1/5, 1/5, 1/5, 1/5, 1/5, 1/5⟩, 1),
          (neckMetricsOf ⟨1/5, 1/5, 1/5, 1/5, 1/5, 1/5⟩, 2),
          (neckMetricsOf ⟨3/5, 3/5, 3/5, 3/5, 3/5, 3/5⟩, 3)]).left_reps = 1 ∧
      (neckRun neckInit
        [(neckMetricsOf ⟨1/5, 1/5, 1/5, 1/5, 1/5, 1/5⟩, 1),
          (neckMetricsOf ⟨1/5, 1/5, 1/5, 1/5, 1/5, 1/5⟩, 2),
          (neckMetricsOf ⟨3/5, 3/5, 3/5, 3/5, 3/5, 3/5⟩, 3)]).right_reps = 0 ∧
      (neckRun neckInit
        [(neckMetricsOf ⟨1/5, 1/5, 1/5, 1/5, 1/5, 1/5⟩, 1),
          (neckMetricsOf ⟨1/5, 1/5, 1/5, 1/5, 1/5, 1/5⟩, 2),
          (neckMetricsOf ⟨3/5, 3/5, 3/5, 3/5, 3/5, 3/5⟩, 3)]).rep_count = 1) := by
  obtain ⟨hr, hl⟩ := claim8_neck_directional_reps
  constructor
  · exact hr
      [((⟨4/5, 4/5, 4/5, 4/5, 4/5, 4/5⟩ : NeckPoints), 1),
        ((⟨4/5, 4/5, 4/5, 4/5, 4/5, 4/5⟩ : NeckPoints), 2)]
      ((⟨2/5, 2/5, 2/5, 2/5, 2/5, 2/5⟩ : NeckPoints), 3) (by simp)
      (by
        intro p hp
        simp only [List.mem_cons, List.not_mem_nil, or_false] at hp
        rcases hp with hp | hp <;> subst hp <;>
          exact ⟨by norm_num [MIDPOINT_X], by norm_num [MIDPOINT_X],
            by norm_num [MIDPOINT_X], by norm_num [MIDPOINT_X],
            by norm_num [MIDPOINT_X], by norm_num [MIDPOINT_X]⟩)
      (by rintro ⟨hx, -⟩; norm_num [MIDPOINT_X] at hx)
  · exact hl
      [((⟨1/5, 1/5, 1/5, 1/5, 1/5, 1/5⟩ : NeckPoints), 1),
        ((⟨1/5, 1/5, 1/5, 1/5, 1/5, 1/5⟩ : NeckPoints), 2)]
      ((⟨3/5, 3/5, 3/5, 3/5, 3/5, 3/5⟩ : NeckPoints), 3) (by simp)
      (by
        intro p hp
        simp only [List.mem_cons, List.not_mem_nil, or_false] at hp
        rcases hp with hp | hp <;> subst hp <;>
          exact ⟨by norm_num [MIDPOINT_X], by norm_num [MIDPOINT_X],
            by norm_num [MIDPOINT_X], by norm_num [MIDPOINT_X],
            by norm_num [MIDPOINT_X], by norm_num [MIDPOINT_X]⟩)
      (by rintro ⟨hx, -⟩; norm_num [MIDPOINT_X] at hx)

lemma chest_inv_init : chestCounterInvariant chestInit := by
  constructor <;> simp [chestInit]

lemma chest_inv_step (s : ChestState) (m : ChestMetrics) (f : ℕ)
    (h : chestCounterInvariant s) :
    chestCounterInvariant ((chestValidate s m f).2) := by
  obtain ⟨h1, h2⟩ := h
  rw [chestValidate_snd]
  unfold chestPostState
  split_ifs with hg1 hg2
  · exact ⟨h1, h2⟩
  · exact ⟨h1, h2⟩
  unfold chestPostStateMain chestCounterInvariant
  dsimp only
  by_cases hrep : chestRepCounted s m f
  · rw [if_pos hrep, if_pos hrep]
    exact ⟨by omega, fun _ => by omega⟩
  rw [if_neg hrep, if_neg hrep]
  unfold chestHoldCounter2
  split_ifs with hreset
  · exact ⟨by omega, fun _ => by omega⟩
  unfold chestHoldComplete1 chestHoldCounter1
  by_cases hhold : chestHolding s m ∧ s.hold_complete = false
  · rw [if_pos hhold]
    have hlt : s.hold_counter < 60 := h2 hhold.2
    by_cases h60 : HOLD_FRAMES ≤ s.hold_counter + 1
    · rw [if_pos ⟨hhold.1, hhold.2, h60⟩]
      unfold HOLD_FRAMES at h60
      exact ⟨by omega, by simp⟩
    · rw [if_neg]
      · refine ⟨by omega, fun _ => ?_⟩
        unfold HOLD_FRAMES at h60
        omega
      rintro ⟨ha, hb, hc⟩
      exact h60 hc
  · rw [if_neg hhold, if_neg]
    · exact ⟨h1, h2⟩
    rintro ⟨ha, hb, -⟩
    exact hhold ⟨ha, hb⟩

lemma chest_inv_run (ms : List (ChestMetrics × ℕ)) :
    chestCounterInvariant (chestRun chestInit ms) := by
  suffices h : ∀ s, chestCounterInvariant s →
      chestCounterInvariant (chestRun s ms) from h chestInit chest_inv_init
  induction ms with
  | nil => exact fun s hs => hs
  | cons p rest ih =>
      exact fun s hs => ih _ (chest_inv_step s p.1 p.2 hs)

lemma chest_complete_stops (s : ChestState) (m : ChestMetrics) (f : ℕ)
    (h : s.hold_complete = true) :
    ((chestValidate s m f).2).hold_counter ≤ s.hold_counter := by
  rw [chestValidate_snd]
  unfold chestPostState
  split_ifs with hg1 hg2
  · exact le_refl _
  · exact le_refl _
  unfold chestPostStateMain
  dsimp only
  by_cases hrep : chestRepCounted s m f
  · rw [if_pos hrep]; omega
  rw [if_neg hrep]
  unfold chestHoldCounter2 chestHoldCounter1
  split_ifs with ha hb
  · omega
  · exact absurd hb.2 (by rw [h]; simp)
  · exact le_refl _

/-- C10: For the Chest Opener validator, after any sequence of
validate_form calls starting from a fresh or reset instance, hold_counter
always satisfies 0 <= hold_counter <= HOLD_FRAMES (60): once the hold
completes, the counter stops incrementing, so the reported hold_seconds in
details never exceeds the 2-second requirement. -/
theorem claim10_chest_hold_counter_bounded :
    (∀ ms : List (ChestMetrics × ℕ),
      0 ≤ (chestRun chestInit ms).hold_counter ∧
        (chestRun chestInit ms).hold_counter ≤ HOLD_FRAMES) ∧
    (∀ ms : List (ChestMetrics × ℕ),
      0 ≤ (chestRun (chestReset (chestRun chestInit ms)) ms).hold_counter ∧
        (chestRun (chestReset (chestRun chestInit ms)) ms).hold_counter ≤
          HOLD_FRAMES) ∧
    (∀ (s : ChestState) (m : ChestMetrics) (f : ℕ), s.hold_complete = true →
      ((chestValidate s m f).2).hold_counter ≤ s.hold_counter) ∧
    (∀ (ms : List (ChestMetrics × ℕ)) (m : ChestMetrics) (f : ℕ),
      ((chestValidate (chestRun chestInit ms) m f).1.details).holdSeconds ≤ 2) := by
  refine ⟨fun ms => ⟨Nat.zero_le _, (chest_inv_run ms).1⟩,
    fun ms => ⟨Nat.zero_le _, (chest_inv_run ms).1⟩, chest_complete_stops,
    fun ms m f => ?_⟩
  have hinv := chest_inv_step (chestRun chestInit ms) m f (chest_inv_run ms)
  rw [chestValidate_snd] at hinv
  have hle : ((chestPostState (chestRun chestInit ms) m f).hold_counter : ℚ) ≤ 60 := by
    exact_mod_cast hinv.1
  unfold chestValidate
  by_cases hg1 : m.left_elbow_visible = false ∨ m.right_elbow_visible = false
  · rw [if_pos hg1]
    show ChestDetails.holdSeconds (ChestDetails.basic _ _) ≤ 2
    unfold ChestDetails.holdSeconds
    norm_num
  rw [if_neg hg1]
  by_cases hg2 : (chestRun chestInit ms).start_position_validated = false ∧
      m.start_position_ok = false
  · rw [if_pos hg2]
    show ChestDetails.holdSeconds (ChestDetails.basic _ _) ≤ 2
    unfold ChestDetails.holdSeconds
    norm_num
  rw [if_neg hg2]
  show ((chestPostStateMain (chestRun chestInit ms) m f).hold_counter : ℚ) / 30 ≤ 2
  have heq : chestPostState (chestRun chestInit ms) m f =
      chestPostStateMain (chestRun chestInit ms) m f := by
    unfold chestPostState
    rw [if_neg hg1, if_neg hg2]
  rw [heq] at hle
  linarith

/-- Witness for C10 (the third conjunct has a hypothesis): after a
validated start and a completed 60-frame hold, a further bottom frame does
not increase the counter. -/
theorem claim10_witness :
    (chestHoldState 60).hold_complete = true ∧
      ((chestValidate (chestHoldState 60) chestBottomMetrics 70).2).hold_counter ≤
        (chestHoldState 60).hold_counter ∧
      0 ≤ (chestRun chestInit []).hold_counter ∧
      (chestRun chestInit []).hold_counter ≤ HOLD_FRAMES ∧
      ((chestValidate (chestRun chestInit []) chestBottomMetrics 1).1.details).holdSeconds ≤ 2 := by
  obtain ⟨ha, -, hc, hd⟩ := claim10_chest_hold_counter_bounded
  exact ⟨by decide, hc (chestHoldState 60) chestBottomMetrics 70 (by decide),
    (ha []).1, (ha []).2, hd [] chestBottomMetrics 1⟩

/-- C9: The three-point angle computation never raises for any input
points: the cosine argument is clamped to [-1, 1] before the inverse
cosine, and when a vector from the vertex has zero length the computation
returns the defined fallback value 0 (for `CatCowPose._calculate_angle`)
or uses an epsilon-guarded, provably positive denominator (for
`AngleCalculator.calculate_angle`) instead of dividing by zero. -/
theorem claim9_angle_computation_safety :
    (∀ p1 p2 p3 : ℝ × ℝ,
      catCowCosAngleClamped p1 p2 p3 ∈ Set.Icc (-1 : ℝ) 1) ∧
    (∀ p1 p2 p3 : ℝ × ℝ, p1 = p2 ∨ p3 = p2 →
      catCow_calculate_angle p1 p2 p3 = 0) ∧
    (∀ p1 p2 p3 : Pt3, 0 < angleCalcDenominator p1 p2 p3) ∧
    (∀ p1 p2 p3 : Pt3,
      angleCalcCosClipped p1 p2 p3 ∈ Set.Icc (-1 : ℝ) 1) := by
  refine ⟨fun p1 p2 p3 => ?_, fun p1 p2 p3 h => ?_, fun p1 p2 p3 => ?_,
    fun p1 p2 p3 => ?_⟩
  · exact ⟨le_max_left _ _, max_le (by norm_num) (min_le_left _ _)⟩
  · unfold catCow_calculate_angle
    rw [if_pos]
    rcases h with h | h
    · have ha : catCowDistA p1 p2 = 0 := by
        rw [h]
        unfold catCowDistA
        simp
      rw [ha, zero_mul]
    · have hb : catCowDistB p2 p3 = 0 := by
        rw [h]
        unfold catCowDistB
        simp
      rw [hb, mul_zero]
  · unfold angleCalcDenominator
    have h1 := Real.sqrt_nonneg ((p1.x - p2.x) ^ 2 + (p1.y - p2.y) ^ 2)
    have h2 := Real.sqrt_nonneg ((p3.x - p2.x) ^ 2 + (p3.y - p2.y) ^ 2)
    nlinarith
  · exact ⟨le_max_left _ _, max_le (by norm_num) (min_le_left _ _)⟩

/-- Witness for C9's zero-length-vector clause: the degenerate triple with
the first point equal to the vertex yields the fallback value 0. -/
theorem claim9_witness :
    catCow_calculate_angle ((0 : ℝ), (0 : ℝ)) (0, 0) (1, 0) = 0 :=
  claim9_angle_computation_safety.2.1 (0, 0) (0, 0) (1, 0) (Or.inl rfl)
